import Mathlib

/-
  Verification development for the `its4zahoor/tools` repository slice:
  - crates/rslint_parser/src/syntax/function.rs
  - crates/rslint_parser/src/syntax/decl.rs
  - crates/rome_formatter/src/ts/bindings/object_binding_pattern.rs
  - crates/rome_formatter/src/ts/assignment/assignment_with_default.rs

  The parser infrastructure (Parser, markers, ParsedSyntax, recovery, the
  dialect gate) lives outside the given sources; those pieces are modelled
  from the specification, each marked with a doc comment starting
  "Modelled from the spec:".  Everything translated from the given Rust
  sources carries the source symbol name in its doc comment.
-/

namespace ToolsSpec

/-- Token kinds used by the declaration / function / parameter grammar. `eof`
is the end-of-input sentinel kind. -/
inductive TokenKind where
  | lparen | rparen | comma | dotdotdot | question | colon | eq | semi
  | lcurly | rcurly | lbracket | star | lt | gt
  | ident | awaitKw | yieldKw | declareKw | functionKw | trueKw | number
  | eof
deriving DecidableEq, Repr

/-- A lexed token: kind, raw text, byte range, and whether a line break
precedes it (the Token Cursor contract of the spec). -/
structure Token where
  kind : TokenKind
  text : String
  start : Nat
  stop : Nat
  linebreakBefore : Bool := false
deriving DecidableEq, Repr

/-- The syntax-node kinds used by the embedded grammar functions
(rslint_syntax::SyntaxKind, restricted to the kinds these sources touch). -/
inductive SyntaxKind where
  | ERROR
  | JS_UNKNOWN_BINDING
  | JS_REST_PARAMETER
  | JS_PARAMETER_LIST
  | JS_PARAMETERS
  | JS_FUNCTION_DECLARATION
  | JS_FUNCTION_EXPRESSION
  | JS_FUNCTION_BODY
  | TS_TYPE_ANN
  | TS_TYPE
  | TS_TYPE_PARAMS
  | JS_IDENTIFIER_BINDING
  | JS_BINDING_PATTERN_WITH_DEFAULT
  | JS_EXPRESSION
deriving DecidableEq, Repr

/-- A completed syntax node: kind plus the half-open range of token indices
it covers.  `change_kind` mutates `kind` in place; the token range never
changes after completion. -/
structure Node where
  kind : SyntaxKind
  startTok : Nat
  endTok : Nat
deriving DecidableEq, Repr

/-- A diagnostic: message plus primary byte span (spec section 6). -/
structure Diagnostic where
  message : String
  spanStart : Nat
  spanStop : Nat
deriving DecidableEq, Repr

/-- ParserState: the lexical context flags (parser/state in the crate,
fields as used by these sources). -/
structure ParserState where
  labels : List String := []
  in_function : Bool := false
  in_generator : Bool := false
  in_async : Bool := false
  in_constructor : Bool := false
  in_declare : Bool := false
  allow_object_expr : Bool := true
deriving DecidableEq, Repr

/-- The parser: token stream, cursor, completed nodes (in completion order),
missing-slot positions, diagnostics, context state, and the dialect flag
(`p.typescript()`). -/
structure P where
  tokens : List Token
  pos : Nat := 0
  nodes : List Node := []
  missings : List Nat := []
  diags : List Diagnostic := []
  state : ParserState := {}
  isTypescript : Bool := false
deriving DecidableEq, Repr

def P.curTokQ (p : P) : Option Token := p.tokens.get? p.pos

/-- `p.cur()`: the current token kind, `eof` past the end. -/
def P.curKind (p : P) : TokenKind :=
  match p.curTokQ with
  | some t => t.kind
  | none => .eof

/-- End offset of the source, used as the position of the EOF sentinel. -/
def P.srcEnd (p : P) : Nat :=
  match p.tokens.getLast? with
  | some t => t.stop
  | none => 0

/-- Start offset of the current token (`p.cur_tok().range.start`). -/
def P.curTokStart (p : P) : Nat :=
  match p.curTokQ with
  | some t => t.start
  | none => p.srcEnd

/-- Stop offset of the current token (`p.cur_tok().range.end`). -/
def P.curTokStop (p : P) : Nat :=
  match p.curTokQ with
  | some t => t.stop
  | none => p.srcEnd

/-- `p.cur_src()`: raw text of the current token. -/
def P.curText (p : P) : String :=
  match p.curTokQ with
  | some t => t.text
  | none => ""

/-- `p.has_linebreak_before_n(0)`. -/
def P.curLinebreak (p : P) : Bool :=
  match p.curTokQ with
  | some t => t.linebreakBefore
  | none => false

/-- `p.nth(n)` kind. -/
def P.nthKind (p : P) (n : Nat) : TokenKind :=
  match p.tokens.get? (p.pos + n) with
  | some t => t.kind
  | none => .eof

/-- `p.has_linebreak_before_n(n)`. -/
def P.nthLinebreak (p : P) (n : Nat) : Bool :=
  match p.tokens.get? (p.pos + n) with
  | some t => t.linebreakBefore
  | none => false

/-- `p.at(EOF)`: the current kind is the EOF sentinel. -/
def P.atEnd (p : P) : Prop := p.curKind = TokenKind.eof

instance (p : P) : Decidable p.atEnd := by
  unfold P.atEnd; infer_instance

/-- `p.bump_any()`: advance the cursor one token (no-op past the end). -/
def P.bumpAny (p : P) : P :=
  if p.pos < p.tokens.length then { p with pos := p.pos + 1 } else p

/-- `p.error(d)`: append a diagnostic (append-only collection). -/
def P.errorD (p : P) (d : Diagnostic) : P :=
  { p with diags := p.diags ++ [d] }

/-- `p.missing()`: record a canonical "missing" placeholder slot at the
current position. -/
def P.missing (p : P) : P :=
  { p with missings := p.missings ++ [p.pos] }

/-- `m.complete(p, kind)`: close the marker opened at token index `m` into a
node of `kind`; returns the CompletedMarker (index into `nodes`). -/
def completeM (p : P) (m : Nat) (k : SyntaxKind) : Nat × P :=
  (p.nodes.length, { p with nodes := p.nodes ++ [⟨k, m, p.pos⟩] })

/-- `CompletedMarker::change_kind`: node-local retag of a completed node. -/
def P.changeKind (p : P) (i : Nat) (k : SyntaxKind) : P :=
  match p.nodes.get? i with
  | some n => { p with nodes := p.nodes.set i { n with kind := k } }
  | none => p

def P.tokStartByte (p : P) (i : Nat) : Nat :=
  match p.tokens.get? i with
  | some t => t.start
  | none => p.srcEnd

def P.tokStopByte (p : P) (i : Nat) : Nat :=
  match p.tokens.get? i with
  | some t => t.stop
  | none => p.srcEnd

/-- `marker.range(p)`: byte span of a completed node (zero-width markers get
an empty span at their start position). -/
def P.nodeRange (p : P) (i : Nat) : Nat × Nat :=
  match p.nodes.get? i with
  | some n =>
    if n.startTok < n.endTok then (p.tokStartByte n.startTok, p.tokStopByte (n.endTok - 1))
    else (p.tokStartByte n.startTok, p.tokStartByte n.startTok)
  | none => (0, 0)

/-- Display names for token kinds, used by the expected-token diagnostics. -/
def tokenName : TokenKind → String
  | .lparen => "LPAREN"
  | .rparen => "RPAREN"
  | .comma => "COMMA"
  | .dotdotdot => "DOTDOTDOT"
  | .question => "QUESTION"
  | .colon => "COLON"
  | .eq => "EQ"
  | .semi => "SEMI"
  | .lcurly => "LCURLY"
  | .rcurly => "RCURLY"
  | .lbracket => "LBRACKET"
  | .star => "STAR"
  | .lt => "LT"
  | .gt => "GT"
  | .ident => "IDENT"
  | .awaitKw => "AWAIT"
  | .yieldKw => "YIELD"
  | .declareKw => "DECLARE"
  | .functionKw => "FUNCTION"
  | .trueKw => "TRUE"
  | .number => "NUMBER"
  | .eof => "EOF"

def expectedMsg (k : TokenKind) : String := "expected " ++ tokenName k

/-- `p.eat(k)`: consume the current token if it has kind `k`; returns whether
it did. -/
def P.eat (p : P) (k : TokenKind) : Bool × P :=
  if p.curKind = k then (true, p.bumpAny) else (false, p)

/-- Modelled from the spec: `Parser::expect_required` — consume `k` or emit
one diagnostic and record a missing placeholder slot (error taxonomy (b),
Missing-but-required). -/
def P.expectRequired (p : P) (k : TokenKind) : Bool × P :=
  if p.curKind = k then (true, p.bumpAny)
  else (false, (p.errorD ⟨expectedMsg k, p.curTokStart, p.curTokStop⟩).missing)

/-- Modelled from the spec: `Parser::eat_optional` — consume `k` or record a
missing placeholder slot without a diagnostic (error taxonomy (a)). -/
def P.eatOptional (p : P) (k : TokenKind) : Bool × P :=
  if p.curKind = k then (true, p.bumpAny) else (false, p.missing)

/-- `ParsedSyntax<CompletedMarker>`: the Present/Absent axis of the
Parsed-Result algebra. -/
inductive Parsed where
  | Absent
  | Present (m : Nat)
deriving DecidableEq, Repr

/-- `ParsedSyntax<ConditionalSyntax>`: Present results additionally carry the
Conditional-Validity verdict. -/
inductive CondParsed where
  | Absent
  | PresentValid (m : Nat)
  | PresentInvalid (m : Nat)
deriving DecidableEq, Repr

def CondParsed.isInvalid : CondParsed → Bool
  | .PresentInvalid _ => true
  | _ => false

def CondParsed.isAbsent : CondParsed → Bool
  | .Absent => true
  | _ => false

/-- Modelled from the spec: `ParsedSyntax::or_missing` — Absent converts to a
missing placeholder slot without a diagnostic. -/
def orMissing (r : Parsed) (p : P) : P :=
  match r with
  | .Absent => p.missing
  | .Present _ => p

/-- Modelled from the spec: `ParsedSyntax::or_missing_with_error` — Absent
emits one (mandatory) diagnostic and converts to a missing placeholder. -/
def orMissingWithError (r : Parsed) (p : P) (msg : String) : P :=
  match r with
  | .Absent => (p.errorD ⟨msg, p.curTokStart, p.curTokStop⟩).missing
  | .Present _ => p

/-- Modelled from the spec: `ParsedSyntax<ConditionalSyntax>::or_missing` as
used through `.is_err()` — Absent becomes a missing placeholder, and the
call reports an error exactly when the result was Present but
invalid-for-dialect. -/
def condOrMissing (r : CondParsed) (p : P) : Bool × P :=
  match r with
  | .Absent => (false, p.missing)
  | .PresentValid _ => (false, p)
  | .PresentInvalid _ => (true, p)

/-- Modelled from the spec (Dialect Gate, section 4.3):
`TypeScript.parse_exclusive_syntax(p, parse, error_builder)` — attempt the
sub-parse unconditionally; if it produced a node and the active dialect
forbids the construct, emit one diagnostic over the node's range and tag the
result invalid-for-dialect, keeping the node in the tree. -/
def parseExclusiveTS (sub : P → Parsed × P) (msg : String) (p : P) : CondParsed × P :=
  let r := sub p
  if r.2.isTypescript then
    match r.1 with
    | .Absent => (.Absent, r.2)
    | .Present m => (.PresentValid m, r.2)
  else
    match r.1 with
    | .Absent => (.Absent, r.2)
    | .Present m =>
      (.PresentInvalid m, r.2.errorD ⟨msg, (r.2.nodeRange m).1, (r.2.nodeRange m).2⟩)

/-- Modelled from the spec: `CompletedMarker::err_if_not_ts` — when the file
is not a type-annotated (TypeScript) file, emit the diagnostic over the
node's range and retag the node as an error node. -/
def errIfNotTs (m : Nat) (msg : String) (p : P) : P :=
  if p.isTypescript then p
  else ((p.errorD ⟨msg, (p.nodeRange m).1, (p.nodeRange m).2⟩).changeKind m .ERROR)

/-- Modelled from the spec: `parse_binding` (syntax/binding.rs is not under
src/) — "an identifier binding": a single identifier-like token (identifier,
or the contextual binding names `await` / `yield`). -/
def parseBinding (p : P) : Parsed × P :=
  if p.curKind = .ident ∨ p.curKind = .awaitKw ∨ p.curKind = .yieldKw then
    let m := p.pos
    let r := completeM p.bumpAny m .JS_IDENTIFIER_BINDING
    (.Present r.1, r.2)
  else (.Absent, p)

/-- Modelled from the spec: `parse_binding_pattern` (syntax/binding.rs is not
under src/) — a binding pattern; identifier-like patterns suffice for the
constructs anchored here. -/
def parseBindingPattern (p : P) : Parsed × P :=
  if p.curKind = .ident ∨ p.curKind = .awaitKw ∨ p.curKind = .yieldKw then
    let m := p.pos
    let r := completeM p.bumpAny m .JS_IDENTIFIER_BINDING
    (.Present r.1, r.2)
  else (.Absent, p)

/-- Modelled from the spec: `expr_or_assignment` (syntax/expr.rs is not under
src/) — an expression; a single literal or identifier token suffices for the
default-value expressions anchored here.  Returns `Option<CompletedMarker>`
as in the crate. -/
def exprOrAssignment (p : P) : Option Nat × P :=
  if p.curKind = .ident ∨ p.curKind = .number ∨ p.curKind = .trueKw then
    let m := p.pos
    let r := completeM p.bumpAny m .JS_EXPRESSION
    (some r.1, r.2)
  else (none, p)

/-- Modelled from the spec: `ts_type` (syntax/typescript.rs is not under
src/) — a type; a single identifier type reference suffices here. -/
def tsType (p : P) : Option Nat × P :=
  if p.curKind = .ident then
    let m := p.pos
    let r := completeM p.bumpAny m .TS_TYPE
    (some r.1, r.2)
  else (none, p)

/-- Fuel-driven skip used by the modelled opaque regions (type-parameter
lists and block bodies); consumes tokens until the stop kind or EOF. -/
def skipPast (k : TokenKind) : Nat → P → P
  | 0, p => p
  | Nat.succ f, p =>
    if p.atEnd ∨ p.curKind = k then p else skipPast k f p.bumpAny

/-- Modelled from the spec: `ts_type_params` (syntax/typescript.rs is not
under src/) — a `<`-delimited type-parameter list, treated as an opaque
token run up to the closing `>`. -/
def tsTypeParams (p : P) : Option Nat × P :=
  if p.curKind = .lt then
    let m := p.pos
    let p1 := skipPast .gt p.tokens.length p.bumpAny
    let p2 := (p1.eat .gt).2
    let r := completeM p2 m .TS_TYPE_PARAMS
    (some r.1, r.2)
  else (none, p)

/-- Modelled from the spec: `ts_type_or_type_predicate_ann` (typescript.rs is
not under src/) — expect the introducer token, then parse a type. -/
def tsTypeOrTypePredicateAnn (p : P) (introducer : TokenKind) : Option Nat × P :=
  let r := p.eat introducer
  if r.1 then tsType r.2 else (none, r.2)

/-- from src function.rs `parse_ts_parameter_types`.  (The `.unwrap()` cannot
fail: `tsTypeParams` returns a node whenever the cursor is at `<`.) -/
def parseTsParameterTypes (p : P) : Parsed × P :=
  if p.curKind = .lt then
    match tsTypeParams p with
    | (some m, p1) => (.Present m, p1)
    | (none, p1) => (.Absent, p1)
  else (.Absent, p)

/-- from src function.rs `parse_ts_return_type_if_ts`. -/
def parseTsReturnTypeIfTs (p : P) : Parsed × P :=
  if p.curKind = .colon then
    let m := p.pos
    let r := tsTypeOrTypePredicateAnn p .colon
    let p2 :=
      match r.1 with
      | some ty => errIfNotTs ty "return types can only be used in TypeScript files" r.2
      | none => r.2
    let c := completeM p2 m .TS_TYPE_ANN
    (.Present c.1, c.2)
  else (.Absent, p)

/-- Modelled from the spec: `maybe_eat_incorrect_modifier` (typescript.rs is
not under src/).  The token universe embedded here contains no
parameter-modifier tokens, so no modifier is ever eaten. -/
def maybeEatIncorrectModifier (p : P) : Option Nat × P := (none, p)

/-- Modelled from the spec: `parse_binding_pattern_with_optional_default`
(syntax/binding.rs is not under src/) — a binding pattern optionally
followed by a `=` default-value initializer. -/
def parseBindingPatternWithOptionalDefault (p : P) : Parsed × P :=
  let m := p.pos
  let r := parseBindingPattern p
  match r.1 with
  | .Absent => (.Absent, r.2)
  | .Present i =>
    if r.2.curKind = .eq then
      let p2 := r.2.bumpAny
      let e := exprOrAssignment p2
      let c := completeM e.2 m .JS_BINDING_PATTERN_WITH_DEFAULT
      (.Present c.1, c.2)
    else (.Present i, r.2)

/-- from src decl.rs `parse_formal_param_pat`. -/
def parseFormalParamPat (p : P) : Parsed × P :=
  if p.isTypescript then
    match maybeEatIncorrectModifier p with
    | (some m, p1) =>
      let p2 := p1.errorD
        ⟨"modifiers on parameters are only allowed in constructors",
          (p1.nodeRange m).1, (p1.nodeRange m).2⟩
      parseBindingPatternWithOptionalDefault p2
    | (none, p1) => parseBindingPatternWithOptionalDefault p1
  else parseBindingPatternWithOptionalDefault p

/-- A Recovery Descriptor (spec section 4.4): fallback node kind,
synchronization token set, and the line-break suppression flag
(`enable_recovery_on_line_break`). -/
structure ParseRecovery where
  kindR : SyntaxKind
  recoverySet : List TokenKind
  lineBreakR : Bool
deriving DecidableEq, Repr

/-- The Recovery Engine's skip loop: advance while the current token is not
a safe resumption point (synchronization set, suppressing line break, or
end-of-input). -/
def recoverSkip (r : ParseRecovery) : Nat → P → P
  | 0, p => p
  | Nat.succ f, p =>
    if p.atEnd ∨ p.curKind ∈ r.recoverySet ∨ (r.lineBreakR = true ∧ p.curLinebreak = true) then p
    else recoverSkip r f p.bumpAny

/-- Modelled from the spec (Recovery Engine, section 4.4):
`ParsedSyntax::or_recover` with `ParseRecovery::recover`.  A Present result
passes through.  On Absent: if zero tokens would be consumed (end-of-input,
a synchronization token, or a suppressing line break at the current token),
the fallback node is still produced as a zero-width marker and the call
signals no progress (`false`) so the driving loop breaks; otherwise the
erroneous tokens are consumed into a fallback node and progress is signalled.
One diagnostic is emitted either way — over the region consumed, or at the
current token when zero tokens were consumed. -/
def orRecover (res : Parsed) (r : ParseRecovery) (msg : String) (p : P) : Bool × P :=
  match res with
  | .Present _ => (true, p)
  | .Absent =>
    if p.atEnd ∨ p.curKind ∈ r.recoverySet ∨ (r.lineBreakR = true ∧ p.curLinebreak = true) then
      let c := completeM p p.pos r.kindR
      (false, c.2.errorD ⟨msg, p.curTokStart, p.curTokStop⟩)
    else
      let m := p.pos
      let p1 := recoverSkip r p.tokens.length p.bumpAny
      let c := completeM p1 m r.kindR
      (true, c.2.errorD ⟨msg, (c.2.nodeRange c.1).1, (c.2.nodeRange c.1).2⟩)

/-- The recovery descriptor used for ordinary parameters in src decl.rs
`parse_parameters_list`: fallback kind JS_UNKNOWN_BINDING, synchronization
set covering identifier-start tokens, contextual binding starts, the
separator, array-pattern start, rest marker and closing delimiter, with
recovery suppressed across a line break. -/
def paramRecovery : ParseRecovery :=
  ⟨.JS_UNKNOWN_BINDING,
    [.ident, .awaitKw, .yieldKw, .comma, .lbracket, .dotdotdot, .rparen],
    true⟩

/-- from src decl.rs `parse_parameters_list`, rest branch: "rest patterns
cannot be optional" — when the cursor is at the optional marker, emit the
diagnostic at that token and wrap the single token in its own
JS_UNKNOWN_BINDING node. -/
def restOptionalCheck (p : P) : P :=
  if p.curKind = .question then
    let p1 := p.errorD ⟨"rest patterns cannot be optional", p.curTokStart, p.curTokStop⟩
    (completeM p1.bumpAny p1.pos .JS_UNKNOWN_BINDING).2
  else p

/-- from src decl.rs `parse_parameters_list`, rest branch: the dialect-gated
type annotation `...foo: T`. -/
def restTypeAnn (p : P) : P :=
  let e := p.eat .colon
  if e.1 then
    match tsType e.2 with
    | (some res, p1) =>
      errIfNotTs res "type annotations can only be used in TypeScript files" p1
    | (none, p1) => p1
  else e.2

/-- from src decl.rs `parse_parameters_list`, rest branch: "rest elements may
not have default initializers" — the span runs from the `=` token through
the end of the parsed default expression, falling back to the current cursor
position when the expression fails to parse; the sub-range becomes an ERROR
node. -/
def restDefaultCheck (p : P) : P :=
  if p.curKind = .eq then
    let start := p.curTokStart
    let m := p.pos
    let e := exprOrAssignment p.bumpAny
    let stop :=
      match e.1 with
      | some x => (e.2.nodeRange x).2
      | none => e.2.curTokStart
    let p1 := e.2.errorD ⟨"rest elements may not have default initializers", start, stop⟩
    (completeM p1 m .ERROR).2
  else p

/-- from src decl.rs `parse_parameters_list`, rest branch: "rest elements may
not have trailing commas" — the separator goes into its own one-token ERROR
node and the loop continues. -/
def restTrailingComma (p : P) : P :=
  if p.curKind = .comma then
    let rs := p.curTokStart
    let re := p.curTokStop
    let p1 := (completeM p.bumpAny p.pos .ERROR).2
    p1.errorD ⟨"rest elements may not have trailing commas", rs, re⟩
  else p

/-- from src decl.rs `parse_parameters_list`, the `T![...]` (rest parameter)
branch of the loop body. -/
def parseRestParameter (p : P) : P :=
  let m := p.pos
  let p1 := p.bumpAny
  let rb := parseBindingPattern p1
  let p2 := orMissingWithError rb.1 rb.2 "expected a binding"
  let p3 := restOptionalCheck p2
  let p4 := restTypeAnn p3
  let p5 := restDefaultCheck p4
  let p6 := (completeM p5 m .JS_REST_PARAMETER).2
  restTrailingComma p6

/-- from src decl.rs `parse_parameters_list`, the `while` loop, driven by
fuel.  A `none` result models the Progress Guard halting the parse on a
no-progress iteration (spec section 4.4: an internal invariant failure,
`ParserProgress::assert_progressing`); the termination theorem below shows
the guard never trips. -/
def paramsLoop (parseParam : P → Parsed × P) : Nat → Bool → P → Option P
  | 0, _, _ => none
  | Nat.succ f, first, p =>
    if p.atEnd ∨ p.curKind = .rparen then some p
    else
      let p1 := if first then p else (p.expectRequired .comma).2
      if p1.curKind = .rparen then some p1
      else if p1.curKind = .dotdotdot then
        paramsLoop parseParam f false (parseRestParameter p1)
      else
        let r := parseParam p1
        let rec1 := orRecover r.1 paramRecovery "expected a parameter" r.2
        if rec1.1 then paramsLoop parseParam f false rec1.2
        else some rec1.2

/-- from src decl.rs `parse_parameters_list`: `(` (its presence recorded in
`allow_object_expr`), the parameter loop, the list node, unconditional
restore of `allow_object_expr` to `true`, and the closing `)`. -/
def parseParametersList (parseParam : P → Parsed × P) (listKind : SyntaxKind) (p : P) :
    Option P :=
  let l := p.expectRequired .lparen
  let p1 := { l.2 with state := { l.2.state with allow_object_expr := l.1 } }
  let m := p1.pos
  match paramsLoop parseParam (p1.tokens.length - p1.pos + 1) true p1 with
  | none => none
  | some p2 =>
    let p3 := (completeM p2 m listKind).2
    let p4 := { p3 with state := { p3.state with allow_object_expr := true } }
    some (p4.expectRequired .rparen).2

/-- from src decl.rs `parse_parameter_list` (brackets included).  The `none`
fallthrough is the Progress Guard's deterministic halt; it is unreachable. -/
def parseParameterList (p : P) : Parsed × P :=
  if p.curKind = .lparen then
    let m := p.pos
    match parseParametersList parseFormalParamPat .JS_PARAMETER_LIST p with
    | some p1 =>
      let c := completeM p1 m .JS_PARAMETERS
      (.Present c.1, c.2)
    | none => (.Absent, p)
  else (.Absent, p)

/-- Modelled from the spec: `parse_block_impl` (syntax/stmt.rs is not under
src/) — a `LCURLY`-delimited block completed as the given body kind; the
statements inside are treated as an opaque token run up to the closing
`RCURLY`. -/
def parseBlockImpl (bodyKind : SyntaxKind) (p : P) : Parsed × P :=
  if p.curKind = .lcurly then
    let m := p.pos
    let p1 := skipPast .rcurly p.tokens.length p.bumpAny
    let p2 := (p1.expectRequired .rcurly).2
    let c := completeM p2 m bodyKind
    (.Present c.1, c.2)
  else (.Absent, p)

/-- from src function.rs `function_body`: a scoped Context-Stack override
(in_constructor cleared, in_function set) around the block parse, restored
when the guard drops. -/
def functionBody (p : P) : Parsed × P :=
  let saved := p.state
  let p1 := { p with state := { p.state with in_constructor := false, in_function := true } }
  let r := parseBlockImpl .JS_FUNCTION_BODY p1
  (r.1, { r.2 with state := saved })

/-- Modelled from the spec: `is_semi(p, 0)` (syntax/stmt.rs is not under
src/) — at a semicolon, a closing brace, end-of-input, or an
automatic-semicolon line break before the current token. -/
def isSemi (p : P) : Bool :=
  decide (p.curKind = .semi) || decide (p.curKind = .rcurly) || decide p.atEnd || p.curLinebreak

/-- from src function.rs `function_body_or_declaration`: omitting the body is
allowed in TypeScript; inside a declare context a parsed body is diagnosed
and retagged as an error node in place, while an absent body becomes a bare
missing slot; otherwise an absent body is the mandatory
expected-function-body error. -/
def functionBodyOrDeclaration (p : P) : P :=
  if p.isTypescript && !(decide (p.curKind = .lcurly)) && isSemi p then
    (p.eat .semi).2
  else
    let b := functionBody p
    if b.2.state.in_declare then
      match b.1 with
      | .Present body =>
        let rng := b.2.nodeRange body
        let p2 := b.2.errorD
          ⟨"function implementations cannot be given in ambient (declare) contexts",
            rng.1, rng.2⟩
        p2.changeKind body .ERROR
      | .Absent => b.2.missing
    else orMissingWithError b.1 b.2 "expected a function body"

/-- from src function.rs `LineBreak` (argument of `is_at_async_function`). -/
inductive LineBreakCheck where
  | DoCheck
  | DoNotCheck
deriving DecidableEq, Repr

/-- from src function.rs `is_at_async_function`. -/
def isAtAsyncFunction (p : P) (c : LineBreakCheck) : Bool :=
  let asyncFunctionTokens := p.curText == "async" && decide (p.nthKind 1 = .functionKw)
  match c with
  | .DoCheck => asyncFunctionTokens && !(p.nthLinebreak 1)
  | .DoNotCheck => asyncFunctionTokens

/-- from src function.rs `parse_function`, the header portion: the
dialect-gated `declare` modifier, the `async` remap, the mandatory
`function` keyword, the optional generator star, the scoped Context-Stack
override (fresh labels, in_function / in_async / in_generator), and the
identifier binding (mandatory for declarations, optional for expressions).
Returns the declare-gate invalidity flag, the saved outer state, and the
parser. -/
def pfHeader (kind : SyntaxKind) (p : P) : Bool × ParserState × P :=
  let d := if kind = .JS_FUNCTION_DECLARATION then p.eat .declareKw else (false, p)
  let usesInvalid : Bool := d.1 && !(d.2.isTypescript)
  let inAsync := isAtAsyncFunction d.2 .DoNotCheck
  let pB := if inAsync then d.2.bumpAny else d.2.missing
  let pC := (pB.expectRequired .functionKw).2
  let g := pC.eatOptional .star
  let saved := g.2.state
  let pE := { g.2 with state :=
    { g.2.state with labels := [], in_function := true, in_async := inAsync, in_generator := g.1 } }
  let id := parseBinding pE
  let pG :=
    if kind = .JS_FUNCTION_DECLARATION then
      orMissingWithError id.1 id.2
        "expected a name for the function in a function declaration, but found none"
    else orMissing id.1 id.2
  (usesInvalid, saved, pG)

/-- from src function.rs `parse_function`: the dialect-gated type-parameter
list, reporting whether it was invalid for the dialect. -/
def pfTypeParams (p : P) : Bool × P :=
  let tp := parseExclusiveTS parseTsParameterTypes
    "type parameters can only be used in TypeScript files" p
  condOrMissing tp.1 tp.2

/-- from src function.rs `parse_function`: the parameter list, required. -/
def pfParams (p : P) : P :=
  let pl := parseParameterList p
  orMissingWithError pl.1 pl.2 "expected parameters"

/-- from src function.rs `parse_function`: the dialect-gated return-type
annotation, reporting whether it was invalid for the dialect. -/
def pfReturnType (p : P) : Bool × P :=
  let rt := parseExclusiveTS parseTsReturnTypeIfTs
    "return types can only be used in TypeScript files" p
  condOrMissing rt.1 rt.2

/-- from src function.rs `parse_function`: the body — declaration-or-body for
declarations, a mandatory body for expressions. -/
def pfBody (kind : SyntaxKind) (p : P) : P :=
  if kind = .JS_FUNCTION_DECLARATION then functionBodyOrDeclaration p
  else
    let b := functionBody p
    orMissingWithError b.1 b.2 "expected a function body"

/-- from src function.rs `parse_function`: header, type parameters, parameter
list, return type, body; the completed node is Present, and tagged invalid
exactly when the accumulated `uses_invalid_syntax` flag was set by the
declare, type-parameter or return-type dialect gates.  The scoped state is
restored when the guard drops. -/
def parseFunction (kind : SyntaxKind) (p : P) : CondParsed × P :=
  let m := p.pos
  let h := pfHeader kind p
  let t := pfTypeParams h.2.2
  let pl := pfParams t.2
  let r := pfReturnType pl
  let b := pfBody kind r.2
  let c := completeM b m kind
  let q := { c.2 with state := h.2.1 }
  if h.1 || t.1 || r.1 then (.PresentInvalid c.1, q) else (.PresentValid c.1, q)

/-- from src function.rs `parse_function_declaration`. -/
def parseFunctionDeclaration (p : P) : CondParsed × P :=
  parseFunction .JS_FUNCTION_DECLARATION p

/-- from src function.rs `parse_function_expression`. -/
def parseFunctionExpression (p : P) : CondParsed × P :=
  parseFunction .JS_FUNCTION_EXPRESSION p

/-! ## The formatter slice (crates/rome_formatter, src files) -/

/-- FormatError as consumed by the src formatter files. -/
inductive FormatError where
  | missingToken
deriving DecidableEq, Repr

/-- FormatElement: the formatter IR constructors the src files build
(empty_element, space_token, formatted tokens/nodes, format_elements lists,
group_elements). -/
inductive FormatElement where
  | empty
  | space
  | tokenE (s : String)
  | nodeE (id : Nat)
  | listE (xs : List FormatElement)
  | groupE (x : FormatElement)
deriving Repr

/-- An opaque reference to a child AST node, consumed only through the
Formatter (the tree-consumer visitation contract of the spec). -/
abbrev AstNode := Nat

abbrev FmtResult := Except FormatError FormatElement

/-- Accessor helper: the `?` on an AST accessor — a missing child surfaces
as a FormatError rather than a panic. -/
def req {α : Type} (o : Option α) : Except FormatError α :=
  match o with
  | some a => Except.ok a
  | none => Except.error .missingToken

/-- The Formatter as the src files consume it: format_token / format_node,
plus the impl (not under src/) that JsIdentifierBinding delegates to,
modelled from the spec's visitation contract as Formatter-provided. -/
structure Formatter where
  formatTokenF : String → FmtResult
  formatNodeF : AstNode → FmtResult
  formatIdentifierBindingF : AstNode → FmtResult

/-- ast::JsObjectBindingPatternProperty as accessed by the src impl. -/
structure JsObjectBindingPatternProperty where
  memberA : Option AstNode
  colonTokenA : Option String
  patternA : Option AstNode
  initA : Option AstNode
deriving DecidableEq, Repr

/-- ast::JsObjectBindingPatternRest as accessed by the src impl. -/
structure JsObjectBindingPatternRest where
  dotdotdotTokenA : Option String
  bindingA : Option AstNode
deriving DecidableEq, Repr

/-- ast::JsObjectBindingPatternShorthandProperty as accessed by the src
impl. -/
structure JsObjectBindingPatternShorthandProperty where
  identifierA : Option AstNode
  initA : Option AstNode
deriving DecidableEq, Repr

/-- ast::JsAnyObjectBindingPatternMember. -/
inductive JsAnyObjectBindingPatternMember where
  | jsObjectBindingPatternProperty (x : JsObjectBindingPatternProperty)
  | jsObjectBindingPatternRest (x : JsObjectBindingPatternRest)
  | jsObjectBindingPatternShorthandProperty (x : JsObjectBindingPatternShorthandProperty)
  | jsIdentifierBinding (x : AstNode)
  | jsUnknownBinding (x : AstNode)
deriving DecidableEq, Repr

/-- from src object_binding_pattern.rs, `impl ToFormatElement for
JsObjectBindingPatternProperty`. -/
def propertyToFormatElement (f : Formatter) (x : JsObjectBindingPatternProperty) : FmtResult := do
  let initNode ←
    match x.initA with
    | some n => do
      let e ← f.formatNodeF n
      pure (FormatElement.listE [.space, e])
    | none => pure FormatElement.empty
  let memberE ← f.formatNodeF (← req x.memberA)
  let colonE ← f.formatTokenF (← req x.colonTokenA)
  let patternE ← f.formatNodeF (← req x.patternA)
  pure (.listE [memberE, colonE, .space, patternE, initNode])

/-- from src object_binding_pattern.rs, `impl ToFormatElement for
JsObjectBindingPatternRest`. -/
def restToFormatElement (f : Formatter) (x : JsObjectBindingPatternRest) : FmtResult := do
  let d ← f.formatTokenF (← req x.dotdotdotTokenA)
  let b ← f.formatNodeF (← req x.bindingA)
  pure (.listE [d, b])

/-- from src object_binding_pattern.rs, `impl ToFormatElement for
JsObjectBindingPatternShorthandProperty`. -/
def shorthandToFormatElement (f : Formatter)
    (x : JsObjectBindingPatternShorthandProperty) : FmtResult := do
  let initNode ←
    match x.initA with
    | some n => do
      let e ← f.formatNodeF n
      pure (FormatElement.listE [.space, e])
    | none => pure FormatElement.empty
  let idE ← f.formatNodeF (← req x.identifierA)
  pure (.listE [idE, initNode])

/-- from src object_binding_pattern.rs, `impl ToFormatElement for
JsAnyObjectBindingPatternMember`.  The JsUnknownBinding arm of the source is
`todo!()` — an unconditional panic — modelled as `none`; every other arm
returns a FormatResult (`some`). -/
def memberToFormatElement (f : Formatter) :
    JsAnyObjectBindingPatternMember → Option FmtResult
  | .jsObjectBindingPatternProperty x => some (propertyToFormatElement f x)
  | .jsObjectBindingPatternRest x => some (restToFormatElement f x)
  | .jsObjectBindingPatternShorthandProperty x => some (shorthandToFormatElement f x)
  | .jsIdentifierBinding n => some (f.formatIdentifierBindingF n)
  | .jsUnknownBinding _ => none

/-- Modelled from the spec: `formatter.format_separated` over the members of
an object binding pattern — formats each member through its
ToFormatElement impl; a panic (`none`) in any member propagates. -/
def formatSeparatedMembers (f : Formatter) :
    List JsAnyObjectBindingPatternMember → Option (Except FormatError (List FormatElement))
  | [] => some (.ok [])
  | m :: ms =>
    match memberToFormatElement f m with
    | none => none
    | some (.error e) => some (.error e)
    | some (.ok x) =>
      match formatSeparatedMembers f ms with
      | none => none
      | some (.error e) => some (.error e)
      | some (.ok xs) => some (.ok (x :: xs))

/-- ast::JsObjectBindingPattern as accessed by the src impl. -/
structure JsObjectBindingPattern where
  lCurlyTokenA : Option String
  propertiesA : List JsAnyObjectBindingPatternMember
  rCurlyTokenA : Option String
deriving DecidableEq, Repr

/-- from src object_binding_pattern.rs, `impl ToFormatElement for
JsObjectBindingPattern`; a panic inside a member propagates as `none`. -/
def objectBindingPatternToFormatElement (f : Formatter)
    (x : JsObjectBindingPattern) : Option FmtResult :=
  match f.formatTokenF <$> (req x.lCurlyTokenA) with
  | .error e => some (.error e)
  | .ok lres =>
    match lres with
    | .error e => some (.error e)
    | .ok l =>
      match formatSeparatedMembers f x.propertiesA with
      | none => none
      | some (.error e) => some (.error e)
      | some (.ok props) =>
        match req x.rCurlyTokenA with
        | .error e => some (.error e)
        | .ok rtok =>
          match f.formatTokenF rtok with
          | .error e => some (.error e)
          | .ok r =>
            some (.ok (.listE [.groupE (.listE [l, .space, .listE props, .space, r])]))

/-- ast::JsAssignmentWithDefault as accessed by the src impl. -/
structure JsAssignmentWithDefault where
  patternA : Option AstNode
  eqTokenA : Option String
  defaultA : Option AstNode
deriving DecidableEq, Repr

/-- from src assignment_with_default.rs, `impl ToFormatElement for
JsAssignmentWithDefault`. -/
def assignmentWithDefaultToFormatElement (f : Formatter)
    (x : JsAssignmentWithDefault) : FmtResult := do
  let patternE ← f.formatNodeF (← req x.patternA)
  let eqE ← f.formatTokenF (← req x.eqTokenA)
  let defaultE ← f.formatNodeF (← req x.defaultA)
  pure (.listE [patternE, .space, eqE, .space, defaultE])

/-! ## Concrete inputs used by the theorems below -/

def tk (k : TokenKind) (t : String) (a b : Nat) (lb : Bool := false) : Token :=
  ⟨k, t, a, b, lb⟩

/-- Token stream of `function foo(...rest: T) \x7b\x7d` (a rest parameter
with a type annotation), parsed in the plain-JavaScript dialect. -/
def exC1 : P := { tokens := [
  tk .functionKw "function" 0 8, tk .ident "foo" 9 12, tk .lparen "(" 12 13,
  tk .dotdotdot "..." 13 16, tk .ident "rest" 16 20, tk .colon ":" 20 21,
  tk .ident "T" 22 23, tk .rparen ")" 23 24, tk .lcurly "" 25 26,
  tk .rcurly "" 26 27] }

/-- Token stream of `function foo(): number \x7b\x7d`, parsed in the
plain-JavaScript dialect. -/
def exC2 : P := { tokens := [
  tk .functionKw "function" 0 8, tk .ident "foo" 9 12, tk .lparen "(" 12 13,
  tk .rparen ")" 13 14, tk .colon ":" 14 15, tk .ident "number" 16 22,
  tk .lcurly "" 23 24, tk .rcurly "" 24 25] }

/-- A parser inside a declare context at end-of-input (an absent function
body in an ambient context). -/
def exC4 : P := { tokens := [], state := { in_declare := true } }

/-- Token stream of `function foo(true) \x7b\x7d` (spec Scenario 5): the
parameter position recovers, wrapping `true` in a JS_UNKNOWN_BINDING
node. -/
def exSc5 : P := { tokens := [
  tk .functionKw "function" 0 8, tk .ident "foo" 9 12, tk .lparen "(" 12 13,
  tk .trueKw "true" 13 17, tk .rparen ")" 17 18, tk .lcurly "" 19 20,
  tk .rcurly "" 20 21] }

def countMsg (ds : List Diagnostic) (m : String) : Nat :=
  (ds.filter (fun d => d.message == m)).length

/-! ## Helper lemmas: token-stream preservation and cursor monotonicity -/

lemma P.bumpAny_tokens (p : P) : p.bumpAny.tokens = p.tokens := by
  unfold P.bumpAny; split <;> rfl

lemma P.bumpAny_pos_le (p : P) : p.pos ≤ p.bumpAny.pos := by
  unfold P.bumpAny; split <;> simp

lemma P.lt_length_of_not_atEnd {p : P} (h : ¬ p.atEnd) : p.pos < p.tokens.length := by
  by_contra hc
  push_neg at hc
  exact h (by unfold P.atEnd P.curKind P.curTokQ; rw [List.get?_eq_none.mpr hc])

lemma P.bumpAny_pos_of_not_atEnd {p : P} (h : ¬ p.atEnd) : p.bumpAny.pos = p.pos + 1 := by
  unfold P.bumpAny
  rw [if_pos (P.lt_length_of_not_atEnd h)]

lemma P.not_atEnd_of_curKind {p : P} {k : TokenKind} (h : p.curKind = k) (hk : k ≠ .eof) :
    ¬ p.atEnd := by
  unfold P.atEnd
  rw [h]
  exact hk

lemma completeM_sk (p : P) (m : Nat) (k : SyntaxKind) :
    (completeM p m k).2.tokens = p.tokens ∧ (completeM p m k).2.pos = p.pos ∧
    (completeM p m k).2.state = p.state := by
  simp [completeM]

lemma P.errorD_sk (p : P) (d : Diagnostic) :
    (p.errorD d).tokens = p.tokens ∧ (p.errorD d).pos = p.pos ∧ (p.errorD d).state = p.state := by
  simp [P.errorD]

lemma P.missing_sk (p : P) :
    p.missing.tokens = p.tokens ∧ p.missing.pos = p.pos ∧ p.missing.state = p.state := by
  simp [P.missing]

lemma P.changeKind_sk (p : P) (i : Nat) (k : SyntaxKind) :
    (p.changeKind i k).tokens = p.tokens ∧ (p.changeKind i k).pos = p.pos ∧
    (p.changeKind i k).state = p.state := by
  unfold P.changeKind
  split <;> simp

lemma P.eat_sk (p : P) (k : TokenKind) :
    (p.eat k).2.tokens = p.tokens ∧ p.pos ≤ (p.eat k).2.pos := by
  unfold P.eat
  split
  · exact ⟨p.bumpAny_tokens, p.bumpAny_pos_le⟩
  · exact ⟨rfl, le_refl _⟩

lemma P.expectRequired_sk (p : P) (k : TokenKind) :
    (p.expectRequired k).2.tokens = p.tokens ∧ p.pos ≤ (p.expectRequired k).2.pos := by
  unfold P.expectRequired
  split
  · exact ⟨p.bumpAny_tokens, p.bumpAny_pos_le⟩
  · simp [P.errorD, P.missing]

lemma P.eatOptional_sk (p : P) (k : TokenKind) :
    (p.eatOptional k).2.tokens = p.tokens ∧ p.pos ≤ (p.eatOptional k).2.pos := by
  unfold P.eatOptional
  split
  · exact ⟨p.bumpAny_tokens, p.bumpAny_pos_le⟩
  · simp [P.missing]

lemma orMissing_sk (r : Parsed) (p : P) :
    (orMissing r p).tokens = p.tokens ∧ (orMissing r p).pos = p.pos ∧
    (orMissing r p).state = p.state := by
  cases r <;> simp [orMissing, P.missing]

lemma orMissingWithError_sk (r : Parsed) (p : P) (msg : String) :
    (orMissingWithError r p msg).tokens = p.tokens ∧
    (orMissingWithError r p msg).pos = p.pos ∧
    (orMissingWithError r p msg).state = p.state := by
  cases r <;> simp [orMissingWithError, P.missing, P.errorD]

lemma errIfNotTs_sk (m : Nat) (msg : String) (p : P) :
    (errIfNotTs m msg p).tokens = p.tokens ∧ (errIfNotTs m msg p).pos = p.pos := by
  unfold errIfNotTs
  split
  · exact ⟨rfl, rfl⟩
  · have h1 := (p.errorD ⟨msg, (p.nodeRange m).1, (p.nodeRange m).2⟩).changeKind_sk m .ERROR
    have h2 := p.errorD_sk ⟨msg, (p.nodeRange m).1, (p.nodeRange m).2⟩
    exact ⟨h1.1.trans h2.1, h1.2.1.trans h2.2.1⟩

lemma exprOrAssignment_sk (p : P) :
    (exprOrAssignment p).2.tokens = p.tokens ∧ p.pos ≤ (exprOrAssignment p).2.pos := by
  unfold exprOrAssignment
  split
  · exact ⟨by simp [completeM, P.bumpAny_tokens], by simp [completeM, P.bumpAny_pos_le]⟩
  · exact ⟨rfl, le_refl _⟩

lemma tsType_sk (p : P) :
    (tsType p).2.tokens = p.tokens ∧ p.pos ≤ (tsType p).2.pos := by
  unfold tsType
  split
  · exact ⟨by simp [completeM, P.bumpAny_tokens], by simp [completeM, P.bumpAny_pos_le]⟩
  · exact ⟨rfl, le_refl _⟩

lemma skipPast_sk (k : TokenKind) : ∀ (f : Nat) (p : P),
    (skipPast k f p).tokens = p.tokens ∧ p.pos ≤ (skipPast k f p).pos ∧
    (skipPast k f p).nodes = p.nodes ∧ (skipPast k f p).diags = p.diags ∧
    (skipPast k f p).missings = p.missings ∧ (skipPast k f p).state = p.state := by
  intro f
  induction f with
  | zero => intro p; simp [skipPast]
  | succ f ih =>
    intro p
    unfold skipPast
    split
    · simp
    · have h := ih p.bumpAny
      refine ⟨h.1.trans p.bumpAny_tokens, le_trans p.bumpAny_pos_le h.2.1, ?_, ?_, ?_, ?_⟩
      · rw [h.2.2.1]; unfold P.bumpAny; split <;> rfl
      · rw [h.2.2.2.1]; unfold P.bumpAny; split <;> rfl
      · rw [h.2.2.2.2.1]; unfold P.bumpAny; split <;> rfl
      · rw [h.2.2.2.2.2]; unfold P.bumpAny; split <;> rfl

lemma recoverSkip_sk (r : ParseRecovery) : ∀ (f : Nat) (p : P),
    (recoverSkip r f p).tokens = p.tokens ∧ p.pos ≤ (recoverSkip r f p).pos := by
  intro f
  induction f with
  | zero => intro p; simp [recoverSkip]
  | succ f ih =>
    intro p
    unfold recoverSkip
    split
    · simp
    · have h := ih p.bumpAny
      exact ⟨h.1.trans p.bumpAny_tokens, le_trans p.bumpAny_pos_le h.2⟩

lemma parseBindingPattern_cases (p : P) :
    ((parseBindingPattern p).1 = .Absent ∧ (parseBindingPattern p).2 = p) ∨
    ((parseBindingPattern p).2.tokens = p.tokens ∧ p.pos < (parseBindingPattern p).2.pos ∧
      ∃ i, (parseBindingPattern p).1 = .Present i) := by
  unfold parseBindingPattern
  split
  · rename_i h
    right
    have hne : ¬ p.atEnd := by
      rcases h with h | h | h <;> exact P.not_atEnd_of_curKind h (by intro hk; cases hk)
    refine ⟨by simp [completeM, P.bumpAny_tokens], ?_, _, rfl⟩
    simp only [completeM]
    rw [P.bumpAny_pos_of_not_atEnd hne]
    omega
  · exact Or.inl ⟨rfl, rfl⟩

lemma parseBindingPatternWithOptionalDefault_cases (p : P) :
    ((parseBindingPatternWithOptionalDefault p).1 = .Absent ∧
      (parseBindingPatternWithOptionalDefault p).2 = p) ∨
    ((parseBindingPatternWithOptionalDefault p).2.tokens = p.tokens ∧
      p.pos < (parseBindingPatternWithOptionalDefault p).2.pos ∧
      ∃ i, (parseBindingPatternWithOptionalDefault p).1 = .Present i) := by
  rcases parseBindingPattern_cases p with ⟨h1, h2⟩ | ⟨h1, h2, i, h3⟩
  · left
    simp only [parseBindingPatternWithOptionalDefault]
    rw [h1, h2]
    exact ⟨rfl, rfl⟩
  · right
    simp only [parseBindingPatternWithOptionalDefault]
    rw [h3]
    simp only
    split
    · have hb := (parseBindingPattern p).2.bumpAny_tokens
      have hbl := (parseBindingPattern p).2.bumpAny_pos_le
      have he := exprOrAssignment_sk (parseBindingPattern p).2.bumpAny
      refine ⟨?_, ?_, _, rfl⟩
      · simp only [completeM]
        rw [he.1, hb, h1]
      · simp only [completeM]
        omega
    · exact ⟨h1, h2, i, rfl⟩

lemma parseFormalParamPat_eq (p : P) :
    parseFormalParamPat p = parseBindingPatternWithOptionalDefault p := by
  unfold parseFormalParamPat maybeEatIncorrectModifier
  split <;> rfl

lemma parseFormalParamPat_cases (p : P) :
    ((parseFormalParamPat p).1 = .Absent ∧ (parseFormalParamPat p).2 = p) ∨
    ((parseFormalParamPat p).2.tokens = p.tokens ∧ p.pos < (parseFormalParamPat p).2.pos ∧
      ∃ i, (parseFormalParamPat p).1 = .Present i) := by
  rw [parseFormalParamPat_eq]
  exact parseBindingPatternWithOptionalDefault_cases p

lemma restOptionalCheck_sk (p : P) :
    (restOptionalCheck p).tokens = p.tokens ∧ p.pos ≤ (restOptionalCheck p).pos := by
  unfold restOptionalCheck
  split
  · have hb := (p.errorD ⟨"rest patterns cannot be optional", p.curTokStart,
      p.curTokStop⟩).bumpAny_tokens
    have hbl := (p.errorD ⟨"rest patterns cannot be optional", p.curTokStart,
      p.curTokStop⟩).bumpAny_pos_le
    constructor
    · simp only [completeM]
      rw [hb]; rfl
    · simp only [completeM]
      simp only [P.errorD] at hbl
      exact hbl
  · exact ⟨rfl, le_refl _⟩

lemma restTypeAnn_sk (p : P) :
    (restTypeAnn p).tokens = p.tokens ∧ p.pos ≤ (restTypeAnn p).pos := by
  unfold restTypeAnn
  have he := p.eat_sk .colon
  have ht := tsType_sk (p.eat .colon).2
  simp only
  split
  · rcases hmt : tsType (p.eat .colon).2 with ⟨o, p1⟩
    rw [hmt] at ht
    cases o with
    | none =>
      simp only
      exact ⟨ht.1.trans he.1, le_trans he.2 ht.2⟩
    | some res =>
      simp only
      have hei := errIfNotTs_sk res "type annotations can only be used in TypeScript files" p1
      exact ⟨hei.1.trans (ht.1.trans he.1), le_trans (le_trans he.2 ht.2) (le_of_eq hei.2.symm)⟩
  · exact ⟨he.1, he.2⟩

lemma restDefaultCheck_sk (p : P) :
    (restDefaultCheck p).tokens = p.tokens ∧ p.pos ≤ (restDefaultCheck p).pos := by
  unfold restDefaultCheck
  split
  · have hb := p.bumpAny_tokens
    have hbl := p.bumpAny_pos_le
    have he := exprOrAssignment_sk p.bumpAny
    constructor
    · simp only [completeM, P.errorD]
      rw [he.1, hb]
    · simp only [completeM, P.errorD]
      omega
  · exact ⟨rfl, le_refl _⟩

lemma restTrailingComma_sk (p : P) :
    (restTrailingComma p).tokens = p.tokens ∧ p.pos ≤ (restTrailingComma p).pos := by
  unfold restTrailingComma
  split
  · have hb := p.bumpAny_tokens
    have hbl := p.bumpAny_pos_le
    constructor
    · simp only [completeM, P.errorD]
      exact hb
    · simp only [completeM, P.errorD]
      exact hbl
  · exact ⟨rfl, le_refl _⟩

lemma parseRestParameter_sk (p : P) (h : p.curKind = .dotdotdot) :
    (parseRestParameter p).tokens = p.tokens ∧ p.pos < (parseRestParameter p).pos := by
  have hne : ¬ p.atEnd := P.not_atEnd_of_curKind h (by intro hk; cases hk)
  have hb : p.bumpAny.tokens = p.tokens := p.bumpAny_tokens
  have hbl : p.bumpAny.pos = p.pos + 1 := P.bumpAny_pos_of_not_atEnd hne
  have hbp : (parseBindingPattern p.bumpAny).2.tokens = p.bumpAny.tokens ∧
      p.bumpAny.pos ≤ (parseBindingPattern p.bumpAny).2.pos := by
    rcases parseBindingPattern_cases p.bumpAny with ⟨_, h2⟩ | ⟨h1, h2, _⟩
    · rw [h2]; exact ⟨rfl, le_refl _⟩
    · exact ⟨h1, le_of_lt h2⟩
  have home := orMissingWithError_sk (parseBindingPattern p.bumpAny).1
    (parseBindingPattern p.bumpAny).2 "expected a binding"
  have h3 := restOptionalCheck_sk (orMissingWithError (parseBindingPattern p.bumpAny).1
    (parseBindingPattern p.bumpAny).2 "expected a binding")
  have h4 := restTypeAnn_sk (restOptionalCheck (orMissingWithError
    (parseBindingPattern p.bumpAny).1 (parseBindingPattern p.bumpAny).2 "expected a binding"))
  have h5 := restDefaultCheck_sk (restTypeAnn (restOptionalCheck (orMissingWithError
    (parseBindingPattern p.bumpAny).1 (parseBindingPattern p.bumpAny).2 "expected a binding")))
  have hc := completeM_sk (restDefaultCheck (restTypeAnn (restOptionalCheck (orMissingWithError
    (parseBindingPattern p.bumpAny).1 (parseBindingPattern p.bumpAny).2 "expected a binding"))))
    p.pos .JS_REST_PARAMETER
  have h7 := restTrailingComma_sk (completeM (restDefaultCheck (restTypeAnn (restOptionalCheck
    (orMissingWithError (parseBindingPattern p.bumpAny).1 (parseBindingPattern p.bumpAny).2
      "expected a binding")))) p.pos .JS_REST_PARAMETER).2
  simp only [parseRestParameter]
  constructor
  · rw [h7.1, hc.1, h5.1, h4.1, h3.1, home.1, hbp.1, hb]
  · have := home.2.1
    omega

lemma orRecover_progress (r : ParseRecovery) (msg : String) (p : P)
    (h : (orRecover .Absent r msg p).1 = true) :
    (orRecover .Absent r msg p).2.tokens = p.tokens ∧
    p.pos < (orRecover .Absent r msg p).2.pos := by
  unfold orRecover at h ⊢
  by_cases hc : p.atEnd ∨ p.curKind ∈ r.recoverySet ∨ (r.lineBreakR = true ∧ p.curLinebreak = true)
  · rw [if_pos hc] at h
    simp at h
  · rw [if_neg hc]
    have hne : ¬ p.atEnd := fun ha => hc (Or.inl ha)
    have hs := recoverSkip_sk r p.tokens.length p.bumpAny
    have hb := P.bumpAny_pos_of_not_atEnd hne
    have hbt := p.bumpAny_tokens
    constructor
    · simp only [completeM, P.errorD]
      rw [hs.1, hbt]
    · simp only [completeM, P.errorD]
      have := hs.2
      omega

lemma tsTypeParams_sk (p : P) :
    (tsTypeParams p).2.tokens = p.tokens ∧ p.pos ≤ (tsTypeParams p).2.pos := by
  unfold tsTypeParams
  split
  · have h1 := skipPast_sk .gt p.tokens.length p.bumpAny
    have h2 := (skipPast .gt p.tokens.length p.bumpAny).eat_sk .gt
    constructor
    · simp only [completeM]
      rw [h2.1, h1.1, p.bumpAny_tokens]
    · simp only [completeM]
      exact le_trans (le_trans p.bumpAny_pos_le h1.2.1) h2.2
  · exact ⟨rfl, le_refl _⟩

/-- Each pass of the parameter-list loop either terminates the loop within
that iteration or strictly advances the cursor, so fuel exceeding the number
of remaining tokens can never run out. -/
lemma paramsLoop_isSome : ∀ (f : Nat) (first : Bool) (p : P),
    p.tokens.length - p.pos < f →
    (paramsLoop parseFormalParamPat f first p).isSome = true := by
  intro f
  induction f with
  | zero => intro first p h; omega
  | succ f ih =>
    intro first p h
    simp only [paramsLoop]
    split
    · simp
    · rename_i hnot
      have hne : ¬ p.atEnd := fun ha => hnot (Or.inl ha)
      have hlen := P.lt_length_of_not_atEnd hne
      set p1 := if first then p else (p.expectRequired .comma).2 with hp1
      have hstep : p1.tokens = p.tokens ∧ p.pos ≤ p1.pos := by
        rw [hp1]
        split
        · exact ⟨rfl, le_refl _⟩
        · exact ⟨(p.expectRequired_sk .comma).1, (p.expectRequired_sk .comma).2⟩
      split
      · simp
      · split
        · rename_i hdd
          have hr := parseRestParameter_sk p1 hdd
          apply ih
          rw [hr.1, hstep.1]
          omega
        · rcases parseFormalParamPat_cases p1 with ⟨ha1, ha2⟩ | ⟨ht, hp, i, hpr⟩
          · rw [ha1, ha2]
            by_cases hrec : (orRecover .Absent paramRecovery "expected a parameter" p1).1 = true
            · rw [if_pos hrec]
              have hpr := orRecover_progress paramRecovery "expected a parameter" p1 hrec
              apply ih
              rw [hpr.1, hstep.1]
              omega
            · rw [if_neg hrec]
              simp
          · rw [hpr]
            simp only [orRecover, if_pos rfl]
            apply ih
            rw [ht, hstep.1]
            omega

lemma P.expectRequired_state (p : P) (k : TokenKind) :
    (p.expectRequired k).2.state = p.state := by
  unfold P.expectRequired
  split
  · unfold P.bumpAny
    split <;> rfl
  · simp [P.errorD, P.missing]

/-! ## Claim theorems -/

/-- Claim C8: for every token stream, the parameter-list loop in
parse_parameters_list terminates — on each iteration either the cursor
strictly advances or the loop breaks within that same iteration, so the
fuel of one more than the number of remaining tokens never runs out and the
parse never hangs (the Progress Guard `none` outcome is unreachable). -/
theorem c8_parameters_list_terminates (p : P) :
    (parseParametersList parseFormalParamPat .JS_PARAMETER_LIST p).isSome = true := by
  simp only [parseParametersList]
  set p1 := { (p.expectRequired .lparen).2 with state :=
    { (p.expectRequired .lparen).2.state with
        allow_object_expr := (p.expectRequired .lparen).1 } } with hp1
  have hs := paramsLoop_isSome (p1.tokens.length - p1.pos + 1) true p1 (by omega)
  obtain ⟨p2, hp2⟩ := Option.isSome_iff_exists.mp hs
  rw [hp2]
  simp

/-- Claim C9: whenever parse_parameters_list returns, the parser-state flag
allow_object_expr equals true, regardless of its value before the call and
regardless of the input or of the parameter sub-parser. -/
theorem c9_allow_object_expr_true_on_return (parseParam : P → Parsed × P)
    (listKind : SyntaxKind) (p : P) :
    (parseParametersList parseParam listKind p).all
      (fun q => q.state.allow_object_expr) = true := by
  simp only [parseParametersList]
  split
  · rfl
  · rename_i p2 heq
    simp only [Option.all]
    rw [P.expectRequired_state]

lemma P.bumpAny_eq {p : P} (h : p.pos < p.tokens.length) :
    p.bumpAny = { p with pos := p.pos + 1 } := by
  unfold P.bumpAny
  rw [if_pos h]

lemma P.curKind_eq {p : P} {t : Token} (h : p.tokens.get? p.pos = some t) :
    p.curKind = t.kind := by
  unfold P.curKind P.curTokQ
  rw [h]

lemma P.curTokStart_eq {p : P} {t : Token} (h : p.tokens.get? p.pos = some t) :
    p.curTokStart = t.start := by
  unfold P.curTokStart P.curTokQ
  rw [h]

lemma P.curTokStop_eq {p : P} {t : Token} (h : p.tokens.get? p.pos = some t) :
    p.curTokStop = t.stop := by
  unfold P.curTokStop P.curTokQ
  rw [h]

lemma P.curKind_ne {p : P} {k : TokenKind} (hk : k ≠ .eof)
    (h : ∀ u : Token, p.tokens.get? p.pos = some u → u.kind ≠ k) : p.curKind ≠ k := by
  unfold P.curKind P.curTokQ
  cases hg : p.tokens.get? p.pos with
  | none => exact fun hh => hk hh.symm
  | some u => exact h u hg

lemma parseBindingPattern_ident {p : P} {t : Token} (h : p.tokens.get? p.pos = some t)
    (hk : t.kind = .ident) :
    parseBindingPattern p = (.Present p.nodes.length,
      { p with
        pos := p.pos + 1
        nodes := p.nodes ++ [⟨.JS_IDENTIFIER_BINDING, p.pos, p.pos + 1⟩] }) := by
  have hlt : p.pos < p.tokens.length := (List.get?_eq_some.mp h).1
  simp only [parseBindingPattern]
  rw [if_pos (Or.inl (by rw [P.curKind_eq h, hk]))]
  rw [P.bumpAny_eq hlt]
  rfl

lemma orMissingWithError_present (i : Nat) (p : P) (msg : String) :
    orMissingWithError (.Present i) p msg = p := rfl

lemma restOptionalCheck_skip {p : P} (h : p.curKind ≠ .question) :
    restOptionalCheck p = p := by
  unfold restOptionalCheck
  rw [if_neg h]

lemma restOptionalCheck_hit {p : P} {t : Token} (h : p.tokens.get? p.pos = some t)
    (hk : t.kind = .question) :
    restOptionalCheck p = { p with
      pos := p.pos + 1
      nodes := p.nodes ++ [⟨.JS_UNKNOWN_BINDING, p.pos, p.pos + 1⟩]
      diags := p.diags ++ [⟨"rest patterns cannot be optional", t.start, t.stop⟩] } := by
  have hlt : p.pos < p.tokens.length := (List.get?_eq_some.mp h).1
  simp only [restOptionalCheck]
  rw [if_pos (by rw [P.curKind_eq h, hk])]
  rw [P.curTokStart_eq h, P.curTokStop_eq h]
  rw [P.bumpAny_eq (p := p.errorD ⟨"rest patterns cannot be optional", t.start, t.stop⟩) hlt]
  rfl

lemma restTypeAnn_skip {p : P} (h : p.curKind ≠ .colon) : restTypeAnn p = p := by
  simp only [restTypeAnn, P.eat]
  rw [if_neg h]
  simp

lemma restDefaultCheck_skip {p : P} (h : p.curKind ≠ .eq) : restDefaultCheck p = p := by
  unfold restDefaultCheck
  rw [if_neg h]

lemma restTrailingComma_skip {p : P} (h : p.curKind ≠ .comma) : restTrailingComma p = p := by
  unfold restTrailingComma
  rw [if_neg h]

lemma restDefaultCheck_hit_expr {p : P} {t te : Token}
    (h : p.tokens.get? p.pos = some t) (hk : t.kind = .eq)
    (hn : p.tokens.get? (p.pos + 1) = some te) (hek : te.kind = .number) :
    restDefaultCheck p = { p with
      pos := p.pos + 2
      nodes := p.nodes ++ [⟨.JS_EXPRESSION, p.pos + 1, p.pos + 2⟩, ⟨.ERROR, p.pos, p.pos + 2⟩]
      diags := p.diags ++
        [⟨"rest elements may not have default initializers", t.start, te.stop⟩] } := by
  have hlt : p.pos < p.tokens.length := (List.get?_eq_some.mp h).1
  have hlt1 : p.pos + 1 < p.tokens.length := (List.get?_eq_some.mp hn).1
  unfold restDefaultCheck
  rw [if_pos (by rw [P.curKind_eq h, hk])]
  rw [P.curTokStart_eq h]
  rw [P.bumpAny_eq hlt]
  have he : exprOrAssignment ({ p with pos := p.pos + 1 } : P) =
      (some p.nodes.length, { p with
        pos := p.pos + 2
        nodes := p.nodes ++ [⟨.JS_EXPRESSION, p.pos + 1, p.pos + 2⟩] }) := by
    simp only [exprOrAssignment]
    rw [if_pos (Or.inr (Or.inl (by rw [P.curKind_eq (p := { p with pos := p.pos + 1 }) hn, hek])))]
    rw [P.bumpAny_eq (p := { p with pos := p.pos + 1 }) hlt1]
    rfl
  rw [he]
  have hrange : (({ p with
      pos := p.pos + 2
      nodes := p.nodes ++ [⟨.JS_EXPRESSION, p.pos + 1, p.pos + 2⟩] } : P).nodeRange
        p.nodes.length).2 = te.stop := by
    unfold P.nodeRange
    rw [List.get?_concat_length]
    simp only
    rw [if_pos (by omega)]
    simp only [P.tokStopByte]
    have h21 : p.pos + 2 - 1 = p.pos + 1 := rfl
    rw [h21, hn]
  simp only
  rw [hrange]
  simp [completeM, P.errorD]

lemma restDefaultCheck_hit_noexpr {p : P} {t tn : Token}
    (h : p.tokens.get? p.pos = some t) (hk : t.kind = .eq)
    (hn : p.tokens.get? (p.pos + 1) = some tn) (hnk : tn.kind = .rparen) :
    restDefaultCheck p = { p with
      pos := p.pos + 1
      nodes := p.nodes ++ [⟨.ERROR, p.pos, p.pos + 1⟩]
      diags := p.diags ++
        [⟨"rest elements may not have default initializers", t.start, tn.start⟩] } := by
  have hlt : p.pos < p.tokens.length := (List.get?_eq_some.mp h).1
  unfold restDefaultCheck
  rw [if_pos (by rw [P.curKind_eq h, hk])]
  rw [P.curTokStart_eq h]
  rw [P.bumpAny_eq hlt]
  have he : exprOrAssignment ({ p with pos := p.pos + 1 } : P) =
      (none, ({ p with pos := p.pos + 1 } : P)) := by
    simp only [exprOrAssignment]
    rw [if_neg (by rw [P.curKind_eq (p := { p with pos := p.pos + 1 }) hn, hnk]; decide)]
  rw [he]
  simp only
  rw [P.curTokStart_eq (p := { p with pos := p.pos + 1 }) hn]
  rfl

/-- When the ordinary-parameter position fails at a token preceded by a line
break (and not in the synchronization set), the very first loop pass invokes
recovery, recovery consumes nothing (zero-width fallback node), and the loop
exits on that same iteration. -/
lemma paramsLoop_break_on_linebreak (q : P) (t : Token) (f : Nat)
    (hq : q.tokens.get? q.pos = some t)
    (hlb : t.linebreakBefore = true)
    (hk : t.kind ∉ paramRecovery.recoverySet)
    (he : t.kind ≠ .eof) :
    paramsLoop parseFormalParamPat (f + 1) true q =
      some ((completeM q q.pos paramRecovery.kindR).2.errorD
        ⟨"expected a parameter", q.curTokStart, q.curTokStop⟩) := by
  have hck : q.curKind = t.kind := by
    unfold P.curKind P.curTokQ
    rw [hq]
  have hclb : q.curLinebreak = true := by
    unfold P.curLinebreak P.curTokQ
    rw [hq]
    exact hlb
  have hnr : q.curKind ≠ .rparen := by
    rw [hck]
    intro hr
    exact hk (by rw [hr]; decide)
  have hnd : q.curKind ≠ .dotdotdot := by
    rw [hck]
    intro hr
    exact hk (by rw [hr]; decide)
  have hna : ¬ q.atEnd := by
    unfold P.atEnd
    rw [hck]
    exact he
  have hbp : parseBindingPattern q = (.Absent, q) := by
    unfold parseBindingPattern
    rw [if_neg]
    rw [hck]
    intro hcase
    rcases hcase with hc | hc | hc <;> exact hk (by rw [hc]; decide)
  have hpf : parseFormalParamPat q = (.Absent, q) := by
    rw [parseFormalParamPat_eq]
    simp only [parseBindingPatternWithOptionalDefault]
    rw [hbp]
  have hrec : orRecover .Absent paramRecovery "expected a parameter" q =
      (false, (completeM q q.pos paramRecovery.kindR).2.errorD
        ⟨"expected a parameter", q.curTokStart, q.curTokStop⟩) := by
    unfold orRecover
    rw [if_pos]
    right; right
    exact ⟨rfl, hclb⟩
  simp only [paramsLoop]
  rw [if_neg (by rintro (ha | hr); exact hna ha; exact hnr hr)]
  simp only [if_true, hnr, hnd, ite_false, hpf, hrec]
  simp

lemma P.bumpAny_nodes (p : P) : p.bumpAny.nodes = p.nodes := by
  unfold P.bumpAny; split <;> rfl

lemma P.bumpAny_diags (p : P) : p.bumpAny.diags = p.diags := by
  unfold P.bumpAny; split <;> rfl

lemma P.bumpAny_state (p : P) : p.bumpAny.state = p.state := by
  unfold P.bumpAny; split <;> rfl

lemma P.expectRequired_nodes (p : P) (k : TokenKind) :
    (p.expectRequired k).2.nodes = p.nodes := by
  unfold P.expectRequired
  split
  · exact p.bumpAny_nodes
  · rfl

lemma P.expectRequired_countMsg (p : P) (k : TokenKind) (msg : String)
    (h : expectedMsg k ≠ msg) :
    countMsg (p.expectRequired k).2.diags msg = countMsg p.diags msg := by
  unfold P.expectRequired
  split
  · rw [p.bumpAny_diags]
  · simp only [P.missing, P.errorD, countMsg, List.filter_append, List.length_append]
    simp [h]

lemma P.changeKind_diags (p : P) (i : Nat) (k : SyntaxKind) :
    (p.changeKind i k).diags = p.diags := by
  unfold P.changeKind
  split <;> rfl

lemma countMsg_append (ds : List Diagnostic) (d : Diagnostic) (m : String) :
    countMsg (ds ++ [d]) m = countMsg ds m + (if d.message == m then 1 else 0) := by
  simp only [countMsg, List.filter_append, List.length_append, List.filter]
  split <;> simp_all

lemma set_append_length {α : Type} (l : List α) (x y : α) :
    (l ++ [x]).set l.length y = l ++ [y] := by
  induction l with
  | nil => rfl
  | cons a as ih => simp [List.set, ih]

/-- Claim C7: when a function body is parsed while the in-declare context
flag is set, one "function implementations cannot be given in ambient
(declare) contexts" diagnostic is emitted and the completed body node's kind
is changed in place to ERROR — a node-local retag: the node keeps its range,
every sibling node already attached (`p.nodes`) is untouched, and the
parser's context state is unchanged. -/
theorem c7_declare_body_retagged_in_place (p : P)
    (h1 : p.state.in_declare = true) (h2 : p.curKind = .lcurly) :
    ∃ e, (functionBodyOrDeclaration p).nodes = p.nodes ++ [⟨.ERROR, p.pos, e⟩] ∧
      countMsg (functionBodyOrDeclaration p).diags
          "function implementations cannot be given in ambient (declare) contexts" =
        countMsg p.diags
          "function implementations cannot be given in ambient (declare) contexts" + 1 ∧
      (functionBodyOrDeclaration p).state = p.state := by
  set msg := "function implementations cannot be given in ambient (declare) contexts" with hmsg
  set p1 : P := { p with state := { p.state with in_constructor := false, in_function := true } } with hp1
  set S : P := skipPast .rcurly p1.tokens.length p1.bumpAny with hS
  set E : P := (S.expectRequired .rcurly).2 with hE
  set C := completeM E p1.pos .JS_FUNCTION_BODY with hC
  have hsk := skipPast_sk .rcurly p1.tokens.length p1.bumpAny
  have hSn : S.nodes = p.nodes := by
    rw [hS, hsk.2.2.1, p1.bumpAny_nodes]
  have hSd : S.diags = p.diags := by
    rw [hS, hsk.2.2.2.1, p1.bumpAny_diags]
  have hSs : S.state = p1.state := by
    rw [hS, hsk.2.2.2.2.2, p1.bumpAny_state]
  have hEn : E.nodes = p.nodes := by
    rw [hE, S.expectRequired_nodes, hSn]
  have hEd : countMsg E.diags msg = countMsg p.diags msg := by
    rw [hE, S.expectRequired_countMsg .rcurly msg (by rw [hmsg]; decide), hSd]
  have hEs : E.state = p1.state := by
    rw [hE, S.expectRequired_state, hSs]
  have hCn : C.2.nodes = p.nodes ++ [⟨.JS_FUNCTION_BODY, p.pos, E.pos⟩] := by
    rw [hC]
    simp only [completeM]
    rw [hEn]
  have hCi : C.1 = p.nodes.length := by
    rw [hC]
    simp only [completeM]
    rw [hEn]
  have hCd : C.2.diags = E.diags := by
    rw [hC]
    simp only [completeM]
  have hbi : parseBlockImpl .JS_FUNCTION_BODY p1 = (.Present C.1, C.2) := by
    simp only [parseBlockImpl]
    rw [if_pos (show p1.curKind = .lcurly from h2)]
  have hfb : functionBody p = (.Present C.1, { C.2 with state := p.state }) := by
    simp only [functionBody]
    rw [show ({ p with state := { p.state with in_constructor := false, in_function := true } } : P) = p1 from rfl, hbi]
  have hcond : (p.isTypescript && !(decide (p.curKind = .lcurly)) && isSemi p) = false := by
    rw [h2]
    simp
  simp only [functionBodyOrDeclaration, hcond, Bool.false_eq_true, if_false, hfb]
  rw [if_pos (show ({ C.2 with state := p.state } : P).state.in_declare = true from h1)]
  set b2 : P := { C.2 with state := p.state } with hb2
  set p2 : P := b2.errorD ⟨msg, (b2.nodeRange C.1).1, (b2.nodeRange C.1).2⟩ with hp2
  have hp2n : p2.nodes = p.nodes ++ [⟨.JS_FUNCTION_BODY, p.pos, E.pos⟩] := by
    rw [hp2]
    simp only [P.errorD]
    exact hCn
  have hget : p2.nodes.get? C.1 = some ⟨.JS_FUNCTION_BODY, p.pos, E.pos⟩ := by
    rw [hp2n, hCi]
    exact List.get?_concat_length p.nodes _
  have hp2d : p2.diags = E.diags ++ [⟨msg, (b2.nodeRange C.1).1, (b2.nodeRange C.1).2⟩] := by
    rw [hp2]
    simp only [P.errorD]
    rw [hCd]
  have hp2s : p2.state = p.state := by
    rw [hp2]
    simp [P.errorD]
  refine ⟨E.pos, ?_, ?_, ?_⟩
  · unfold P.changeKind
    rw [hget]
    simp only [hp2n, hCi]
    rw [set_append_length]
  · rw [P.changeKind_diags, hp2d, countMsg_append, hEd]
    simp
  · rw [(p2.changeKind_sk C.1 .ERROR).2.2, hp2s]

/-- Claim C7 witness input: a `\x7b \x7d` body inside a declare context. -/
def c7w : P := { tokens := [tk .lcurly "" 0 1, tk .rcurly "" 1 2]
                 state := { in_declare := true } }

/-- Witness for C7 at the concrete input. -/
theorem c7_declare_body_retagged_in_place_witness :
    ∃ e, (functionBodyOrDeclaration c7w).nodes = c7w.nodes ++ [⟨.ERROR, c7w.pos, e⟩] ∧
      countMsg (functionBodyOrDeclaration c7w).diags
          "function implementations cannot be given in ambient (declare) contexts" =
        countMsg c7w.diags
          "function implementations cannot be given in ambient (declare) contexts" + 1 ∧
      (functionBodyOrDeclaration c7w).state = c7w.state :=
  c7_declare_body_retagged_in_place c7w rfl rfl

/-- Claim C4 counterexample: inside a declare context with the body absent
(end of input, plain-JavaScript dialect), function_body_or_declaration
emits NO diagnostic — it records a bare missing placeholder — although the
claim says the absence is diagnosed. -/
theorem c4_counterexample :
    exC4.state.in_declare = true ∧
    (functionBodyOrDeclaration exC4).diags = [] ∧
    (functionBodyOrDeclaration exC4).missings = [0] := by
  decide

/-- Claim C4 (amended): outside the TypeScript semicolon case and with no
body present, an absent body inside a declare context yields a missing
placeholder with no diagnostic, while outside a declare context it yields
the mandatory expected-function-body diagnostic with a placeholder; and in
the TypeScript dialect at a semicolon point the body may be omitted
entirely (the semicolon is eaten) with no diagnostic and no placeholder. -/
theorem c4_body_absence_behaviour :
    (∀ p : P, p.curKind ≠ .lcurly → ¬(p.isTypescript = true ∧ isSemi p = true) →
      ((p.state.in_declare = true → functionBodyOrDeclaration p = p.missing) ∧
        (p.state.in_declare = false → functionBodyOrDeclaration p =
          (p.errorD ⟨"expected a function body", p.curTokStart, p.curTokStop⟩).missing))) ∧
    (∀ p : P, p.isTypescript = true → p.curKind ≠ .lcurly → isSemi p = true →
      functionBodyOrDeclaration p = (p.eat .semi).2) := by
  constructor
  · intro p hcur hts
    have hcond : (p.isTypescript && !(decide (p.curKind = .lcurly)) && isSemi p) = false := by
      by_cases h : p.isTypescript = true
      · by_cases h2 : isSemi p = true
        · exact absurd ⟨h, h2⟩ hts
        · rw [(Bool.not_eq_true _).mp h2]
          simp
      · rw [(Bool.not_eq_true _).mp h]
        rfl
    have hfb : functionBody p = (.Absent, p) := by
      simp only [functionBody, parseBlockImpl]
      rw [if_neg (show ({ p with state := { p.state with in_constructor := false, in_function := true } } : P).curKind ≠ .lcurly from hcur)]
    simp only [functionBodyOrDeclaration, hcond, Bool.false_eq_true, if_false, hfb]
    constructor
    · intro h
      rw [if_pos h]
    · intro h
      rw [if_neg (by rw [h]; exact Bool.false_ne_true)]
      rfl
  · intro p hts hcur hsemi
    have hcond : (p.isTypescript && !(decide (p.curKind = .lcurly)) && isSemi p) = true := by
      rw [hts, hsemi, decide_eq_false hcur]
      rfl
    simp only [functionBodyOrDeclaration, hcond, if_true]

/-- Claim C4 witness input: end of input, no declare context. -/
def c4wb : P := { tokens := [] }

/-- Witness for the amended C4 at a concrete input (absent body outside a
declare context: diagnostic plus placeholder). -/
theorem c4_body_absence_behaviour_witness :
    functionBodyOrDeclaration c4wb =
      (c4wb.errorD ⟨"expected a function body", c4wb.curTokStart, c4wb.curTokStop⟩).missing :=
  (c4_body_absence_behaviour.1 c4wb (by decide) (by decide)).2 rfl

/-- Claim C1 counterexample: parsing `function foo(...rest: T) \x7b\x7d` in
the plain-JavaScript dialect, the rest parameter's type annotation is a
dialect-gated sub-construct that is invalid for the active dialect (its
diagnostic is emitted and its node is retagged as an ERROR node), and yet
parse_function returns Present(Valid) — refuting the claimed
"if and only if" over every dialect-gated sub-result. -/
theorem c1_counterexample :
    (parseFunctionDeclaration exC1).1 = .PresentValid 7 ∧
    countMsg (parseFunctionDeclaration exC1).2.diags
      "type annotations can only be used in TypeScript files" = 1 ∧
    (parseFunctionDeclaration exC1).2.nodes.any (fun n => n.kind == .ERROR) = true := by
  decide

/-- Claim C1 (amended): parse_function always returns a Present result, and
that result is Present(Invalid) if and only if at least one of exactly
three dialect-gated sub-results was invalid: the declare modifier, the
type-parameter list, or the return-type annotation.  Dialect-gated
sub-constructs inside the parameter list (such as a rest parameter's type
annotation) emit their own diagnostic but never affect the aggregate
Conditional-Validity. -/
theorem c1_validity_is_or_of_three_gates (kind : SyntaxKind) (p : P) :
    (parseFunction kind p).1.isAbsent = false ∧
    (parseFunction kind p).1.isInvalid =
      ((pfHeader kind p).1 || (pfTypeParams (pfHeader kind p).2.2).1 ||
        (pfReturnType (pfParams (pfTypeParams (pfHeader kind p).2.2).2)).1) := by
  simp only [parseFunction]
  constructor
  · split <;> rfl
  · split
    · rename_i h
      simp only [CondParsed.isInvalid]
      exact h.symm
    · rename_i h
      simp only [CondParsed.isInvalid]
      exact ((Bool.not_eq_true _).mp h).symm

/-- Claim C2 counterexample: parsing `function foo(): number \x7b\x7d` in
the plain-JavaScript dialect emits TWO diagnostics with the message
"return types can only be used in TypeScript files" (one from the
return-type sub-parser's internal not-TypeScript check, one from the
enclosing dialect gate), not exactly one as claimed. -/
theorem c2_counterexample :
    countMsg (parseFunctionDeclaration exC2).2.diags
      "return types can only be used in TypeScript files" = 2 := by
  decide

/-- Claim C2 (amended): for `function foo(): number \x7b\x7d` in a
non-type-annotated dialect the whole declaration is still parsed (the
JS_FUNCTION_DECLARATION node spans all eight tokens), the return-type node
(TS_TYPE_ANN) is attached to the tree, the declaration's
Conditional-Validity is Invalid-For-Dialect, and exactly two diagnostics
are emitted for the violation — one by `err_if_not_ts` inside
parse_ts_return_type_if_ts and one by the TypeScript exclusive-syntax
gate. -/
theorem c2_return_type_dialect_gate :
    (parseFunctionDeclaration exC2).1 = .PresentInvalid 6 ∧
    (parseFunctionDeclaration exC2).2.nodes.any (fun n => n.kind == .TS_TYPE_ANN) = true ∧
    (parseFunctionDeclaration exC2).2.nodes.any
      (fun n => n.kind == .JS_FUNCTION_DECLARATION && n.startTok == 0 && n.endTok == 8) = true ∧
    countMsg (parseFunctionDeclaration exC2).2.diags
      "return types can only be used in TypeScript files" = 2 := by
  decide

/-- A formatter whose primitive callbacks always succeed, used to exhibit
the panic of the JsUnknownBinding arm independent of the callbacks. -/
def fmtDefault : Formatter :=
  ⟨fun s => .ok (.tokenE s), fun n => .ok (.nodeE n), fun n => .ok (.nodeE n)⟩

/-- Claim C10: formatting is partial over the trees the parser can produce —
the JsUnknownBinding arm of JsAnyObjectBindingPatternMember's
to_format_element is an unimplemented todo! that panics (modelled as none)
for every formatter, and an object binding pattern with such a member
panics as a whole; JS_UNKNOWN_BINDING is exactly the fallback kind of the
parameter recovery descriptor, and parsing `function foo(true) \x7b\x7d`
(spec Scenario 5) really produces a node of that kind. -/
theorem c10_formatter_panics_on_unknown_binding :
    (∀ (f : Formatter) (n : AstNode), memberToFormatElement f (.jsUnknownBinding n) = none) ∧
    objectBindingPatternToFormatElement fmtDefault
      ⟨some "l", [.jsUnknownBinding 0], some "r"⟩ = none ∧
    paramRecovery.kindR = .JS_UNKNOWN_BINDING ∧
    (parseFunctionDeclaration exSc5).2.nodes.any
      (fun n => n.kind == .JS_UNKNOWN_BINDING) = true := by
  refine ⟨fun f n => rfl, rfl, rfl, by decide⟩

/-- Claim C5: when a rest parameter is followed by the default-value
introducer `=`, exactly one diagnostic "rest elements may not have default
initializers" is emitted, its span running from the start of the `=` token
through the end of the parsed default expression (second part: falling back
to the current cursor position when the expression fails to parse), the
`=`-through-expression sub-range becomes an ERROR node, and the enclosing
rest-parameter node is still completed as JS_REST_PARAMETER containing it. -/
theorem c5_rest_default_initializer :
    (∀ (p : P) (t1 t2 t3 : Token),
      p.curKind = .dotdotdot →
      p.tokens.get? (p.pos + 1) = some t1 → t1.kind = .ident →
      p.tokens.get? (p.pos + 2) = some t2 → t2.kind = .eq →
      p.tokens.get? (p.pos + 3) = some t3 → t3.kind = .number →
      (∀ u : Token, p.tokens.get? (p.pos + 4) = some u → u.kind ≠ .comma) →
      parseRestParameter p = { p with
        pos := p.pos + 4
        nodes := p.nodes ++ [⟨.JS_IDENTIFIER_BINDING, p.pos + 1, p.pos + 2⟩,
          ⟨.JS_EXPRESSION, p.pos + 3, p.pos + 4⟩, ⟨.ERROR, p.pos + 2, p.pos + 4⟩,
          ⟨.JS_REST_PARAMETER, p.pos, p.pos + 4⟩]
        diags := p.diags ++
          [⟨"rest elements may not have default initializers", t2.start, t3.stop⟩] }) ∧
    (∀ (p : P) (t1 t2 t3 : Token),
      p.curKind = .dotdotdot →
      p.tokens.get? (p.pos + 1) = some t1 → t1.kind = .ident →
      p.tokens.get? (p.pos + 2) = some t2 → t2.kind = .eq →
      p.tokens.get? (p.pos + 3) = some t3 → t3.kind = .rparen →
      parseRestParameter p = { p with
        pos := p.pos + 3
        nodes := p.nodes ++ [⟨.JS_IDENTIFIER_BINDING, p.pos + 1, p.pos + 2⟩,
          ⟨.ERROR, p.pos + 2, p.pos + 3⟩, ⟨.JS_REST_PARAMETER, p.pos, p.pos + 3⟩]
        diags := p.diags ++
          [⟨"rest elements may not have default initializers", t2.start, t3.start⟩] }) := by
  constructor
  intro p t1 t2 t3 h0 h1 h1k h2 h2k h3 h3k h4
  have hlt0 : p.pos < p.tokens.length := by
    have := (List.get?_eq_some.mp h1).1
    omega
  have s1 : p.bumpAny = ({ p with pos := p.pos + 1 } : P) := P.bumpAny_eq hlt0
  have s2 : parseBindingPattern ({ p with pos := p.pos + 1 } : P) =
      (.Present p.nodes.length, ({ p with pos := p.pos + 2, nodes := p.nodes ++ [⟨.JS_IDENTIFIER_BINDING, p.pos + 1, p.pos + 2⟩] } : P)) :=
    parseBindingPattern_ident h1 h1k
  set X2 : P := { p with pos := p.pos + 2, nodes := p.nodes ++ [⟨.JS_IDENTIFIER_BINDING, p.pos + 1, p.pos + 2⟩] } with hX2
  have s3 : orMissingWithError (.Present p.nodes.length) X2 "expected a binding" = X2 := rfl
  have s4 : restOptionalCheck X2 = X2 :=
    restOptionalCheck_skip (by rw [P.curKind_eq (p := X2) h2, h2k]; decide)
  have s5 : restTypeAnn X2 = X2 :=
    restTypeAnn_skip (by rw [P.curKind_eq (p := X2) h2, h2k]; decide)
  have s6 : restDefaultCheck X2 =
      ({ p with pos := p.pos + 4, nodes := (p.nodes ++ [⟨.JS_IDENTIFIER_BINDING, p.pos + 1, p.pos + 2⟩]) ++ [⟨.JS_EXPRESSION, p.pos + 3, p.pos + 4⟩, ⟨.ERROR, p.pos + 2, p.pos + 4⟩], diags := p.diags ++ [⟨"rest elements may not have default initializers", t2.start, t3.stop⟩] } : P) :=
    restDefaultCheck_hit_expr h2 h2k h3 h3k
  set X3 : P := { p with pos := p.pos + 4, nodes := (p.nodes ++ [⟨.JS_IDENTIFIER_BINDING, p.pos + 1, p.pos + 2⟩]) ++ [⟨.JS_EXPRESSION, p.pos + 3, p.pos + 4⟩, ⟨.ERROR, p.pos + 2, p.pos + 4⟩], diags := p.diags ++ [⟨"rest elements may not have default initializers", t2.start, t3.stop⟩] } with hX3
  have s7 : (completeM X3 p.pos .JS_REST_PARAMETER).2 =
      ({ p with pos := p.pos + 4, nodes := ((p.nodes ++ [⟨.JS_IDENTIFIER_BINDING, p.pos + 1, p.pos + 2⟩]) ++ [⟨.JS_EXPRESSION, p.pos + 3, p.pos + 4⟩, ⟨.ERROR, p.pos + 2, p.pos + 4⟩]) ++ [⟨.JS_REST_PARAMETER, p.pos, p.pos + 4⟩], diags := p.diags ++ [⟨"rest elements may not have default initializers", t2.start, t3.stop⟩] } : P) := rfl
  set X4 : P := { p with pos := p.pos + 4, nodes := ((p.nodes ++ [⟨.JS_IDENTIFIER_BINDING, p.pos + 1, p.pos + 2⟩]) ++ [⟨.JS_EXPRESSION, p.pos + 3, p.pos + 4⟩, ⟨.ERROR, p.pos + 2, p.pos + 4⟩]) ++ [⟨.JS_REST_PARAMETER, p.pos, p.pos + 4⟩], diags := p.diags ++ [⟨"rest elements may not have default initializers", t2.start, t3.stop⟩] } with hX4
  have s8 : restTrailingComma X4 = X4 :=
    restTrailingComma_skip (P.curKind_ne (by decide) h4)
  simp only [parseRestParameter, s1, s2, s3, s4, s5, s6, s7, s8]
  rw [hX4]
  simp [List.append_assoc]
  intro p t1 t2 t3 h0 h1 h1k h2 h2k h3 h3k
  have hlt0 : p.pos < p.tokens.length := by
    have := (List.get?_eq_some.mp h1).1
    omega
  have s1 : p.bumpAny = ({ p with pos := p.pos + 1 } : P) := P.bumpAny_eq hlt0
  have s2 : parseBindingPattern ({ p with pos := p.pos + 1 } : P) =
      (.Present p.nodes.length, ({ p with pos := p.pos + 2, nodes := p.nodes ++ [⟨.JS_IDENTIFIER_BINDING, p.pos + 1, p.pos + 2⟩] } : P)) :=
    parseBindingPattern_ident h1 h1k
  set X2 : P := { p with pos := p.pos + 2, nodes := p.nodes ++ [⟨.JS_IDENTIFIER_BINDING, p.pos + 1, p.pos + 2⟩] } with hX2
  have s3 : orMissingWithError (.Present p.nodes.length) X2 "expected a binding" = X2 := rfl
  have s4 : restOptionalCheck X2 = X2 :=
    restOptionalCheck_skip (by rw [P.curKind_eq (p := X2) h2, h2k]; decide)
  have s5 : restTypeAnn X2 = X2 :=
    restTypeAnn_skip (by rw [P.curKind_eq (p := X2) h2, h2k]; decide)
  have s6 : restDefaultCheck X2 =
      ({ p with pos := p.pos + 3, nodes := (p.nodes ++ [⟨.JS_IDENTIFIER_BINDING, p.pos + 1, p.pos + 2⟩]) ++ [⟨.ERROR, p.pos + 2, p.pos + 3⟩], diags := p.diags ++ [⟨"rest elements may not have default initializers", t2.start, t3.start⟩] } : P) :=
    restDefaultCheck_hit_noexpr h2 h2k h3 h3k
  set X3 : P := { p with pos := p.pos + 3, nodes := (p.nodes ++ [⟨.JS_IDENTIFIER_BINDING, p.pos + 1, p.pos + 2⟩]) ++ [⟨.ERROR, p.pos + 2, p.pos + 3⟩], diags := p.diags ++ [⟨"rest elements may not have default initializers", t2.start, t3.start⟩] } with hX3
  have s7 : (completeM X3 p.pos .JS_REST_PARAMETER).2 =
      ({ p with pos := p.pos + 3, nodes := ((p.nodes ++ [⟨.JS_IDENTIFIER_BINDING, p.pos + 1, p.pos + 2⟩]) ++ [⟨.ERROR, p.pos + 2, p.pos + 3⟩]) ++ [⟨.JS_REST_PARAMETER, p.pos, p.pos + 3⟩], diags := p.diags ++ [⟨"rest elements may not have default initializers", t2.start, t3.start⟩] } : P) := rfl
  set X4 : P := { p with pos := p.pos + 3, nodes := ((p.nodes ++ [⟨.JS_IDENTIFIER_BINDING, p.pos + 1, p.pos + 2⟩]) ++ [⟨.ERROR, p.pos + 2, p.pos + 3⟩]) ++ [⟨.JS_REST_PARAMETER, p.pos, p.pos + 3⟩], diags := p.diags ++ [⟨"rest elements may not have default initializers", t2.start, t3.start⟩] } with hX4
  have s8 : restTrailingComma X4 = X4 :=
    restTrailingComma_skip (by rw [P.curKind_eq (p := X4) h3, h3k]; decide)
  simp only [parseRestParameter, s1, s2, s3, s4, s5, s6, s7, s8]
  rw [hX4]
  simp [List.append_assoc]

/-- Claim C5 witness input: the token stream of `...rest = 1`. -/
def c5w : P := { tokens := [tk .dotdotdot "..." 0 3, tk .ident "rest" 3 7,
  tk .eq "=" 8 9, tk .number "1" 10 11] }

/-- Witness for C5 at the concrete input `...rest = 1`. -/
theorem c5_rest_default_initializer_witness :
    parseRestParameter c5w = { c5w with
      pos := c5w.pos + 4
      nodes := c5w.nodes ++ [⟨.JS_IDENTIFIER_BINDING, c5w.pos + 1, c5w.pos + 2⟩,
        ⟨.JS_EXPRESSION, c5w.pos + 3, c5w.pos + 4⟩, ⟨.ERROR, c5w.pos + 2, c5w.pos + 4⟩,
        ⟨.JS_REST_PARAMETER, c5w.pos, c5w.pos + 4⟩]
      diags := c5w.diags ++
        [⟨"rest elements may not have default initializers", 8, 11⟩] } :=
  c5_rest_default_initializer.1 c5w (tk .ident "rest" 3 7) (tk .eq "=" 8 9)
    (tk .number "1" 10 11) rfl rfl rfl rfl rfl rfl rfl
    (fun u hu => nomatch hu)

/-- Claim C6: when, after a rest parameter's binding pattern, the cursor is
at the optional-marker token `?`, exactly one diagnostic "rest patterns
cannot be optional" is emitted spanning that token, only that single token
is wrapped in its own JS_UNKNOWN_BINDING error node, and the enclosing
rest-parameter node is still completed as JS_REST_PARAMETER (it is not
reclassified). -/
theorem c6_rest_optional_marker (p : P) (t1 t2 : Token)
    (h0 : p.curKind = .dotdotdot)
    (h1 : p.tokens.get? (p.pos + 1) = some t1) (h1k : t1.kind = .ident)
    (h2 : p.tokens.get? (p.pos + 2) = some t2) (h2k : t2.kind = .question)
    (h3 : ∀ u : Token, p.tokens.get? (p.pos + 3) = some u →
      u.kind ≠ .colon ∧ u.kind ≠ .eq ∧ u.kind ≠ .comma) :
    parseRestParameter p = { p with
      pos := p.pos + 3
      nodes := p.nodes ++ [⟨.JS_IDENTIFIER_BINDING, p.pos + 1, p.pos + 2⟩,
        ⟨.JS_UNKNOWN_BINDING, p.pos + 2, p.pos + 3⟩,
        ⟨.JS_REST_PARAMETER, p.pos, p.pos + 3⟩]
      diags := p.diags ++ [⟨"rest patterns cannot be optional", t2.start, t2.stop⟩] } := by
  have hlt0 : p.pos < p.tokens.length := by
    have := (List.get?_eq_some.mp h1).1
    omega
  have s1 : p.bumpAny = ({ p with pos := p.pos + 1 } : P) := P.bumpAny_eq hlt0
  have s2 : parseBindingPattern ({ p with pos := p.pos + 1 } : P) =
      (.Present p.nodes.length, ({ p with pos := p.pos + 2, nodes := p.nodes ++ [⟨.JS_IDENTIFIER_BINDING, p.pos + 1, p.pos + 2⟩] } : P)) :=
    parseBindingPattern_ident h1 h1k
  set X2 : P := { p with pos := p.pos + 2, nodes := p.nodes ++ [⟨.JS_IDENTIFIER_BINDING, p.pos + 1, p.pos + 2⟩] } with hX2
  have s3 : orMissingWithError (.Present p.nodes.length) X2 "expected a binding" = X2 := rfl
  have s4 : restOptionalCheck X2 =
      ({ p with pos := p.pos + 3, nodes := (p.nodes ++ [⟨.JS_IDENTIFIER_BINDING, p.pos + 1, p.pos + 2⟩]) ++ [⟨.JS_UNKNOWN_BINDING, p.pos + 2, p.pos + 3⟩], diags := p.diags ++ [⟨"rest patterns cannot be optional", t2.start, t2.stop⟩] } : P) :=
    restOptionalCheck_hit h2 h2k
  set X3 : P := { p with pos := p.pos + 3, nodes := (p.nodes ++ [⟨.JS_IDENTIFIER_BINDING, p.pos + 1, p.pos + 2⟩]) ++ [⟨.JS_UNKNOWN_BINDING, p.pos + 2, p.pos + 3⟩], diags := p.diags ++ [⟨"rest patterns cannot be optional", t2.start, t2.stop⟩] } with hX3
  have s5 : restTypeAnn X3 = X3 :=
    restTypeAnn_skip (P.curKind_ne (by decide) (fun u hu => (h3 u hu).1))
  have s6 : restDefaultCheck X3 = X3 :=
    restDefaultCheck_skip (P.curKind_ne (by decide) (fun u hu => (h3 u hu).2.1))
  have s7 : (completeM X3 p.pos .JS_REST_PARAMETER).2 =
      ({ p with pos := p.pos + 3, nodes := ((p.nodes ++ [⟨.JS_IDENTIFIER_BINDING, p.pos + 1, p.pos + 2⟩]) ++ [⟨.JS_UNKNOWN_BINDING, p.pos + 2, p.pos + 3⟩]) ++ [⟨.JS_REST_PARAMETER, p.pos, p.pos + 3⟩], diags := p.diags ++ [⟨"rest patterns cannot be optional", t2.start, t2.stop⟩] } : P) := rfl
  set X4 : P := { p with pos := p.pos + 3, nodes := ((p.nodes ++ [⟨.JS_IDENTIFIER_BINDING, p.pos + 1, p.pos + 2⟩]) ++ [⟨.JS_UNKNOWN_BINDING, p.pos + 2, p.pos + 3⟩]) ++ [⟨.JS_REST_PARAMETER, p.pos, p.pos + 3⟩], diags := p.diags ++ [⟨"rest patterns cannot be optional", t2.start, t2.stop⟩] } with hX4
  have s8 : restTrailingComma X4 = X4 :=
    restTrailingComma_skip (P.curKind_ne (by decide) (fun u hu => (h3 u hu).2.2))
  simp only [parseRestParameter, s1, s2, s3, s4, s5, s6, s7, s8]
  rw [hX4]
  simp [List.append_assoc]

/-- Claim C6 witness input: the token stream of `...rest?`. -/
def c6w : P := { tokens := [tk .dotdotdot "..." 0 3, tk .ident "rest" 3 7,
  tk .question "?" 7 8] }

/-- Witness for C6 at the concrete input `...rest?`. -/
theorem c6_rest_optional_marker_witness :
    parseRestParameter c6w = { c6w with
      pos := c6w.pos + 3
      nodes := c6w.nodes ++ [⟨.JS_IDENTIFIER_BINDING, c6w.pos + 1, c6w.pos + 2⟩,
        ⟨.JS_UNKNOWN_BINDING, c6w.pos + 2, c6w.pos + 3⟩,
        ⟨.JS_REST_PARAMETER, c6w.pos, c6w.pos + 3⟩]
      diags := c6w.diags ++ [⟨"rest patterns cannot be optional", 7, 8⟩] } :=
  c6_rest_optional_marker c6w (tk .ident "rest" 3 7) (tk .question "?" 7 8)
    rfl rfl rfl rfl rfl (fun u hu => nomatch hu)

/-- Claim C3: when parsing an ordinary parameter fails inside
parse_parameters_list and the current token is preceded by a line break,
recovery is suppressed: no token past the line break is consumed (the final
cursor sits just after the opening parenthesis) and the loop exits instead
of skipping input, with the expected-parameter diagnostic emitted. -/
theorem c3_recovery_suppressed_on_line_break (p : P) (t : Token)
    (h0 : p.curKind = .lparen)
    (h1 : p.tokens.get? (p.pos + 1) = some t)
    (hlb : t.linebreakBefore = true)
    (hk : t.kind ∉ paramRecovery.recoverySet)
    (he : t.kind ≠ .eof) :
    ∃ q, parseParametersList parseFormalParamPat .JS_PARAMETER_LIST p = some q ∧
      q.pos = p.pos + 1 ∧
      countMsg q.diags "expected a parameter" = countMsg p.diags "expected a parameter" + 1 := by
  have hlen : p.pos + 1 < p.tokens.length := (List.get?_eq_some.mp h1).1
  have hb : p.bumpAny = { p with pos := p.pos + 1 } := by
    unfold P.bumpAny
    rw [if_pos (by omega)]
  have hl : p.expectRequired .lparen = (true, { p with pos := p.pos + 1 }) := by
    unfold P.expectRequired
    rw [if_pos h0, hb]
  simp only [parseParametersList, hl]
  have hkey := paramsLoop_break_on_linebreak ({ p with pos := p.pos + 1, state := { p.state with allow_object_expr := true } } : P) t (p.tokens.length - (p.pos + 1)) h1 hlb hk he
  rw [hkey]
  refine ⟨_, rfl, ?_, ?_⟩
  · simp only [P.expectRequired]
    split
    · rename_i hcond
      exfalso
      simp only [P.curKind, P.curTokQ, completeM, P.errorD, h1] at hcond
      exact hk (by rw [hcond]; decide)
    · simp [P.missing, P.errorD, completeM]
  · simp only [P.expectRequired]
    split
    · rename_i hcond
      exfalso
      simp only [P.curKind, P.curTokQ, completeM, P.errorD, h1] at hcond
      exact hk (by rw [hcond]; decide)
    · simp only [P.missing, P.errorD, completeM, countMsg, List.filter_append]
      simp +decide [expectedMsg, tokenName]

/-- Claim C3 witness input: `(` followed by a token on the next line that
no parameter parse or synchronization point accepts. -/
def c3w : P := { tokens := [tk .lparen "(" 0 1, tk .star "*" 2 3 true] }

/-- Witness for C3 at the concrete input. -/
theorem c3_recovery_suppressed_on_line_break_witness :
    ∃ q, parseParametersList parseFormalParamPat .JS_PARAMETER_LIST c3w = some q ∧
      q.pos = c3w.pos + 1 ∧
      countMsg q.diags "expected a parameter" =
        countMsg c3w.diags "expected a parameter" + 1 :=
  c3_recovery_suppressed_on_line_break c3w (tk .star "*" 2 3 true)
    rfl rfl rfl (by decide) (by decide)

end ToolsSpec
